import Mathlib

/-!
App-Market front end: route gates and resource views.

A shallow embedding of the session gate and route table
(`frontend/src/App.js`), of the logout handler
(`frontend/src/components/DashboardLayout.js`), of the fetch, create and
delete handlers of the analyses, reports, opportunities and dashboard views
(`frontend/src/pages/Analyses.js`, `Reports.js`, `Opportunities.js`,
`Dashboard.js`) and of the submit handlers of the login and registration
pages (`frontend/src/pages/Login.js`, `Register.js`).

React components are embedded as pure functions from the values they read
to what they render.  An `async` handler is embedded as a function of the
state it was rendered with and of the outcome of the request it awaits; it
returns the state after its setters have run together with the ordered
trace of the effects it performed (notices, requests, confirmation prompts).
-/

set_option autoImplicit false

namespace AppMarket

/-! ## Data model -/

/-- The user object held by the auth context (`user.full_name`,
`user.company_name` are read by `DashboardLayout`). -/
structure UserProfile where
  id : String
  full_name : String
  company_name : String
  email : String
  deriving DecidableEq, Repr

/-- The part of the value of `useAuth()` that the route gates read. -/
structure AuthValue where
  user : Option UserProfile
  token : Option String
  loading : Bool
  deriving DecidableEq, Repr

/-- What a route gate returns to the renderer. -/
inductive Rendered where
  /-- the centred spinner `div` -/
  | spinner
  /-- the element `<Navigate to=... replace />` -/
  | navigate (path : String) (replace : Bool)
  /-- the wrapped `children` -/
  | children
  deriving DecidableEq, Repr

/-! ## Route gates (`App.js`) -/

/-- `ProtectedRoute`, lines 14-30 of `App.js`. -/
def ProtectedRoute (auth : AuthValue) : Rendered :=
  if auth.loading then
    Rendered.spinner
  else if auth.user.isNone then
    Rendered.navigate "/login" true
  else
    Rendered.children

/-- `PublicRoute`, lines 32-48 of `App.js`. -/
def PublicRoute (auth : AuthValue) : Rendered :=
  if auth.loading then
    Rendered.spinner
  else if auth.user.isSome then
    Rendered.navigate "/dashboard" true
  else
    Rendered.children

/-- A gate output is a redirect when it is a `Navigate` element. -/
def Rendered.isRedirect : Rendered → Bool
  | Rendered.navigate _ _ => true
  | _ => false

/-! ## Session controller

`frontend/src/context/AuthContext` is imported by every component but is
not among the sources; its operations are modelled from the specification. -/

/-- Modelled from the spec: the three states of the session state machine
(section 4.2), read off the auth value: `initializing` while `loading`,
then `authenticated` when a user is present and `anonymous` otherwise. -/
inductive SessionState where
  | initializing
  | anonymous
  | authenticated
  deriving DecidableEq, Repr

/-- Modelled from the spec: the state of the session state machine that an
auth value stands for. -/
def sessionState (auth : AuthValue) : SessionState :=
  if auth.loading then SessionState.initializing
  else if auth.user.isSome then SessionState.authenticated
  else SessionState.anonymous

/-- Modelled from the spec: the auth value before `initialize()` has
completed (`loading` is `true`, nothing restored yet). -/
def initialAuth : AuthValue :=
  { user := none, token := none, loading := true }

/-- Modelled from the spec: `initialize()` of the missing `AuthContext`
reads the credential store; a stored session makes the user authenticated
at once, and `loading` becomes `false`. -/
def initializeSession (stored : Option (String × UserProfile)) : AuthValue :=
  match stored with
  | some (token, user) => { user := some user, token := some token, loading := false }
  | none => { user := none, token := none, loading := false }

/-- Modelled from the spec: the outcome of `login(email, password)` of the
missing `AuthContext`: on success the returned token and profile become the
session, on failure the prior session state is left untouched. -/
def login (auth : AuthValue) (response : Except String (String × UserProfile)) : AuthValue :=
  match response with
  | Except.ok (token, user) => { auth with user := some user, token := some token }
  | Except.error _ => auth

/-- Modelled from the spec: `logout()` of the missing `AuthContext` clears
the in-memory session synchronously. -/
def logout (auth : AuthValue) : AuthValue :=
  { auth with user := none, token := none }

/-- `handleLogout`, lines 29-32 of `DashboardLayout.js`: `logout()` and then
`navigate("/")`; returns the auth value and the path navigated to. -/
def handleLogout (auth : AuthValue) : AuthValue × String :=
  (logout auth, "/")

/-- A session operation a user can trigger once the application runs. -/
inductive SessionOp where
  /-- a login request that the backend accepted, with the session returned -/
  | loginOk (token : String) (user : UserProfile)
  /-- a login request that was rejected, with the message carried -/
  | loginFailed (message : String)
  /-- a click on the logout button of the dashboard layout -/
  | logoutClick
  deriving DecidableEq, Repr

/-- The auth value after one session operation. -/
def SessionOp.apply (auth : AuthValue) : SessionOp → AuthValue
  | SessionOp.loginOk token user => login auth (Except.ok (token, user))
  | SessionOp.loginFailed message => login auth (Except.error message)
  | SessionOp.logoutClick => (handleLogout auth).1

/-- The auth value after a sequence of session operations, oldest first. -/
def runSession (auth : AuthValue) (ops : List SessionOp) : AuthValue :=
  ops.foldl SessionOp.apply auth

/-! ## Resources, requests and effects -/

/-- An opportunity as the views read it. -/
structure Opportunity where
  id : String
  title : String
  description : String
  potential_revenue : String
  priority : String
  risk_level : String
  analysis_title : String
  deriving DecidableEq, Repr

/-- An analysis as the views read it. -/
structure Analysis where
  id : String
  title : String
  industry : String
  target_market : String
  competitors : List String
  description : String
  status : String
  ai_insights : Option String
  opportunities : List Opportunity
  created_at : String
  deriving DecidableEq, Repr

/-- A report as the reports view reads it. -/
structure Report where
  id : String
  title : String
  report_type : String
  content : String
  created_at : String
  deriving DecidableEq, Repr

/-- The `formData` state of the analyses view (lines 58-64 of `Analyses.js`). -/
structure AnalysisForm where
  title : String
  industry : String
  target_market : String
  competitors : String
  description : String
  deriving DecidableEq, Repr

/-- The `payload` object of `handleCreate` in `Analyses.js`: the form with
`competitors` replaced by a sequence of strings. -/
structure AnalysisPayload where
  title : String
  industry : String
  target_market : String
  competitors : List String
  description : String
  deriving DecidableEq, Repr

/-- The `formData` state of the reports view (lines 52-55 of `Reports.js`). -/
structure ReportForm where
  analysis_id : String
  report_type : String
  deriving DecidableEq, Repr

/-- The body of a POST request. -/
inductive Payload where
  | analysis (body : AnalysisPayload)
  | report (body : ReportForm)
  deriving DecidableEq, Repr

/-- The value of `getAuthHeader()`, passed as the request configuration. -/
structure RequestConfig where
  authorization : Option String
  deriving DecidableEq, Repr

/-- A rejected request: the status and the `response.data.detail` message,
when the backend answered with them. -/
structure RequestError where
  status : Option Nat
  detail : Option String
  deriving DecidableEq, Repr

/-- What a handler reads from its surroundings: `REACT_APP_BACKEND_URL` and
the value `getAuthHeader()` returns. -/
structure Env where
  backendUrl : String
  authHeader : RequestConfig
  deriving DecidableEq, Repr

/-- The constant `API` of the pages. -/
def API (env : Env) : String :=
  env.backendUrl ++ "/api"

/-- The `formData` state of the registration page (lines 12-17 of
`Register.js`). -/
structure RegisterForm where
  full_name : String
  company_name : String
  email : String
  password : String
  deriving DecidableEq, Repr

/-- An observable effect of a handler, in the order performed. -/
inductive Effect where
  /-- the call `e.preventDefault()` -/
  | preventDefault
  /-- the call `toast.error(msg)` -/
  | toastError (msg : String)
  /-- the call `toast.success(msg)` -/
  | toastSuccess (msg : String)
  /-- the prompt `window.confirm(msg)` -/
  | confirm (msg : String)
  /-- the request `axios.get(url, config)` -/
  | get (url : String) (config : RequestConfig)
  /-- the request `axios.post(url, payload, config)` -/
  | post (url : String) (payload : Payload) (config : RequestConfig)
  /-- the request `axios.delete(url, config)` -/
  | delete (url : String) (config : RequestConfig)
  /-- the call `navigate(path)` of the router -/
  | navigate (path : String)
  /-- the call `login(email, password)` into the auth context, with the
  session it resolved with when the backend accepted it -/
  | login (email password : String) (accepted : Option (String × UserProfile))
  /-- the call `register(formData)` into the auth context, with the session
  it resolved with when the backend accepted it -/
  | register (form : RegisterForm) (accepted : Option (String × UserProfile))
  /-- the call `logout()` into the auth context -/
  | logout
  /-- the click on a temporary link whose `href` is the object URL of a
  `Blob` holding `content` with the given MIME type, and whose `download`
  attribute is `name` -/
  | download (name content mimeType : String)
  deriving DecidableEq, Repr

/-- An effect is a network request when it is an `axios` call. -/
def Effect.isRequest : Effect → Bool
  | Effect.get _ _ => true
  | Effect.post _ _ _ => true
  | Effect.delete _ _ => true
  | _ => false

/-- An effect is an error notice when it is a `toast.error` call. -/
def Effect.isErrorNotice : Effect → Bool
  | Effect.toastError _ => true
  | _ => false

/-- An effect is a success notice when it is a `toast.success` call. -/
def Effect.isSuccessNotice : Effect → Bool
  | Effect.toastSuccess _ => true
  | _ => false

/-- An effect is a notice when it is a `toast` call of either kind. -/
def Effect.isNotice (e : Effect) : Bool :=
  e.isErrorNotice || e.isSuccessNotice

/-- An effect is a call into the auth context when it is one of `login`,
`register` and `logout`. -/
def Effect.isAuthCall : Effect → Bool
  | Effect.login _ _ _ => true
  | Effect.register _ _ => true
  | Effect.logout => true
  | _ => false

/-- An effect is a navigation when it is a `navigate` call. -/
def Effect.isNavigation : Effect → Bool
  | Effect.navigate _ => true
  | _ => false

/-- The network requests of a trace, in order. -/
def requests (trace : List Effect) : List Effect :=
  trace.filter Effect.isRequest

/-- The notices of a trace, in order. -/
def notices (trace : List Effect) : List Effect :=
  trace.filter Effect.isNotice

/-- The success notices of a trace, in order. -/
def successNotices (trace : List Effect) : List Effect :=
  trace.filter Effect.isSuccessNotice

/-- The calls into the auth context of a trace, in order. -/
def authCalls (trace : List Effect) : List Effect :=
  trace.filter Effect.isAuthCall

/-- The navigations of a trace, in order. -/
def navigations (trace : List Effect) : List Effect :=
  trace.filter Effect.isNavigation

/-- The error notices of a trace, in order. -/
def errorNotices (trace : List Effect) : List Effect :=
  trace.filter Effect.isErrorNotice

/-- A state together with the trace of effects that led to it. -/
structure Outcome (σ : Type) where
  state : σ
  trace : List Effect

/-- Modelled from the spec: what a call into the missing `AuthContext`
does to its value: an accepted `login` or `register` installs the returned
session (section 4.2: a successful register behaves like login), a rejected
one leaves the session untouched, `logout` clears it.  This covers the three
operations a component can call and nothing else: the transition to
anonymous on an authorization failure (sections 3, 4.2 and 7) is not part of
it, no effect of a trace carrying the status of a response, so the function
says nothing about the session after a rejected request. -/
def Effect.applyAuth (auth : AuthValue) : Effect → AuthValue
  | Effect.login _ _ (some session) => AppMarket.login auth (Except.ok session)
  | Effect.login _ _ none => auth
  | Effect.register _ (some session) => AppMarket.login auth (Except.ok session)
  | Effect.register _ none => auth
  | Effect.logout => AppMarket.logout auth
  | _ => auth

/-- Modelled from the spec: the auth value after the calls into the auth
context that a trace holds, in order. -/
def authAfter (auth : AuthValue) (trace : List Effect) : AuthValue :=
  trace.foldl Effect.applyAuth auth

/-- How a block of statements ends: normally, or by throwing. -/
inductive Completion where
  | normal
  | thrown (error : RequestError)
  deriving DecidableEq, Repr

/-- How `await request` ends: normally when the request is fulfilled, by
throwing the rejection value when it is rejected. -/
def awaitCompletion {α : Type} (response : Except RequestError α) : Completion :=
  match response with
  | Except.ok _ => Completion.normal
  | Except.error e => Completion.thrown e

/-- How `try { body } catch (error) { handler } finally { final }` ends: the
handler runs when the body throws, the final block runs in every case and
its own throw, if any, takes over.  A statement without `finally` has
`final` normal. -/
def tryCatchFinally (body : Completion) (handler : RequestError → Completion)
    (final : Completion) : Completion :=
  match final with
  | Completion.thrown e => Completion.thrown e
  | Completion.normal =>
    match body with
    | Completion.normal => Completion.normal
    | Completion.thrown e => handler e

/-! ## JavaScript string operations -/

/-- The `length` of a JavaScript string: the number of UTF-16 code units,
two for every code point above the basic plane. -/
def jsLength (s : String) : Nat :=
  (s.data.map (fun c => if c.toNat < 0x10000 then 1 else 2)).sum

/-- The expression `error.response?.data?.detail || fallback`: the detail
when it is present and truthy (not the empty string), else the fallback. -/
def detailOr (error : RequestError) (fallback : String) : String :=
  match error.detail with
  | some detail => if detail = "" then fallback else detail
  | none => fallback

/-! ## JavaScript string operations used by the analyses view -/

/-- The code points that `String.prototype.trim` strips: the ECMAScript
`WhiteSpace` and `LineTerminator` productions. -/
def isJsWhiteSpace (c : Char) : Bool :=
  let n := c.toNat
  n == 0x09 || n == 0x0A || n == 0x0B || n == 0x0C || n == 0x0D || n == 0x20 ||
  n == 0xA0 || n == 0x1680 || (0x2000 ≤ n && n ≤ 0x200A) || n == 0x2028 ||
  n == 0x2029 || n == 0x202F || n == 0x205F || n == 0x3000 || n == 0xFEFF

/-- The pieces of `s.split(sep)` for a one-character separator, on the
characters of the string: a new piece starts after every separator. -/
def splitChars (sep : Char) : List Char → List (List Char)
  | [] => [[]]
  | c :: cs =>
    if c = sep then
      [] :: splitChars sep cs
    else
      match splitChars sep cs with
      | [] => [[c]]
      | piece :: pieces => (c :: piece) :: pieces

/-- The characters of `s.trim()`: leading white space dropped, then
trailing white space dropped. -/
def trimChars (cs : List Char) : List Char :=
  (cs.dropWhile isJsWhiteSpace).rdropWhile isJsWhiteSpace

/-- `s.split(sep)` for a one-character separator. -/
def jsSplit (sep : Char) (s : String) : List String :=
  (splitChars sep s.data).map String.mk

/-- `s.trim()`. -/
def jsTrim (s : String) : String :=
  String.mk (trimChars s.data)

/-- The `competitors` entry of the payload, lines 93-95 of `Analyses.js`:
`formData.competitors ? formData.competitors.split(",").map((c) => c.trim()) : []`. -/
def competitorsPayload (competitors : String) : List String :=
  if competitors = "" then [] else (jsSplit ',' competitors).map jsTrim

/-! ## The analyses view (`pages/Analyses.js`) -/

/-- The `useState` cells of the `Analyses` component, lines 52-64. -/
structure AnalysesState where
  analyses : List Analysis
  loading : Bool
  creating : Bool
  dialogOpen : Bool
  detailsOpen : Bool
  selectedAnalysis : Option Analysis
  formData : AnalysisForm
  deriving DecidableEq, Repr

namespace Analyses

/-- The form with every field empty (lines 58-64 and 101-107). -/
def emptyForm : AnalysisForm :=
  { title := "", industry := "", target_market := "", competitors := "", description := "" }

/-- The initial values of the `useState` cells. -/
def initialState : AnalysesState :=
  { analyses := [], loading := true, creating := false, dialogOpen := false,
    detailsOpen := false, selectedAnalysis := none, formData := emptyForm }

/-- The `payload` of lines 91-96: the form spread, `competitors` overridden. -/
def createPayload (formData : AnalysisForm) : AnalysisPayload :=
  { title := formData.title
    industry := formData.industry
    target_market := formData.target_market
    competitors := competitorsPayload formData.competitors
    description := formData.description }

/-- The part of `handleCreate` that runs before the request settles (lines
83-98) on the state `s` the component was rendered with: the state after
the setters, the trace, and whether a request is now pending. -/
def handleCreate_submit (env : Env) (s : AnalysesState) : Outcome AnalysesState × Bool :=
  if s.formData.title = "" ∨ s.formData.industry = "" ∨ s.formData.target_market = "" then
    ({ state := s
       trace := [Effect.preventDefault,
                 Effect.toastError "Veuillez remplir les champs obligatoires"] }, false)
  else
    ({ state := { s with creating := true }
       trace := [Effect.preventDefault,
                 Effect.post (API env ++ "/analyses")
                   (Payload.analysis (createPayload s.formData)) env.authHeader] }, true)

/-- The part of `handleCreate` that runs once the POST has settled (lines
99-113).  `rendered` is the state the handler was created with (the
`analyses` of line 99 is that of the closure), `current` the state of the
component when the request settles. -/
def handleCreate_settle (rendered : AnalysesState) (response : Except RequestError Analysis)
    (current : AnalysesState) : Outcome AnalysesState :=
  match response with
  | Except.ok data =>
    { state := { current with
                 analyses := data :: rendered.analyses
                 dialogOpen := false
                 formData := emptyForm
                 creating := false }
      trace := [Effect.toastSuccess "Analyse créée avec succès !"] }
  | Except.error _ =>
    { state := { current with creating := false }
      trace := [Effect.toastError "Erreur lors de la création de l\x27analyse"] }

/-- `handleCreate`, lines 82-114, run without any other handler in between:
`response` is the outcome of the POST, consulted only when it is issued. -/
def handleCreate (env : Env) (s : AnalysesState) (response : Except RequestError Analysis) :
    Outcome AnalysesState :=
  let started := handleCreate_submit env s
  if started.2 then
    let settled := handleCreate_settle s response started.1.state
    { state := settled.state, trace := started.1.trace ++ settled.trace }
  else
    started.1

/-- The part of `handleDelete` that runs before the request settles (lines
117-120): `confirmed` is the answer to `window.confirm`. -/
def handleDelete_ask (env : Env) (s : AnalysesState) (id : String) (confirmed : Bool) :
    Outcome AnalysesState × Bool :=
  if !confirmed then
    ({ state := s, trace := [Effect.confirm "Supprimer cette analyse ?"] }, false)
  else
    ({ state := s
       trace := [Effect.confirm "Supprimer cette analyse ?",
                 Effect.delete (API env ++ "/analyses/" ++ id) env.authHeader] }, true)

/-- The part of `handleDelete` that runs once the DELETE has settled (lines
121-125); `rendered` and `current` as for `handleCreate_settle`. -/
def handleDelete_settle (rendered : AnalysesState) (id : String)
    (response : Except RequestError Unit) (current : AnalysesState) : Outcome AnalysesState :=
  match response with
  | Except.ok _ =>
    { state := { current with analyses := rendered.analyses.filter (fun a => a.id != id) }
      trace := [Effect.toastSuccess "Analyse supprimée"] }
  | Except.error _ =>
    { state := current
      trace := [Effect.toastError "Erreur lors de la suppression"] }

/-- `handleDelete`, lines 116-126, run without any other handler in between. -/
def handleDelete (env : Env) (s : AnalysesState) (id : String) (confirmed : Bool)
    (response : Except RequestError Unit) : Outcome AnalysesState :=
  let started := handleDelete_ask env s id confirmed
  if started.2 then
    let settled := handleDelete_settle s id response started.1.state
    { state := settled.state, trace := started.1.trace ++ settled.trace }
  else
    started.1

end Analyses

/-! ## The reports view (`pages/Reports.js`) -/

/-- The `useState` cells of the `Reports` component, lines 45-55. -/
structure ReportsState where
  reports : List Report
  analyses : List Analysis
  loading : Bool
  creating : Bool
  dialogOpen : Bool
  viewOpen : Bool
  selectedReport : Option Report
  formData : ReportForm
  deriving DecidableEq, Repr

namespace Reports

/-- The form with both fields empty (lines 52-55 and 89). -/
def emptyForm : ReportForm :=
  { analysis_id := "", report_type := "" }

/-- The initial values of the `useState` cells. -/
def initialState : ReportsState :=
  { reports := [], analyses := [], loading := true, creating := false, dialogOpen := false,
    viewOpen := false, selectedReport := none, formData := emptyForm }

/-- The part of `handleCreate` that runs before the request settles (lines
78-86). -/
def handleCreate_submit (env : Env) (s : ReportsState) : Outcome ReportsState × Bool :=
  if s.formData.analysis_id = "" ∨ s.formData.report_type = "" then
    ({ state := s
       trace := [Effect.preventDefault,
                 Effect.toastError "Veuillez sélectionner une analyse et un type de rapport"] },
     false)
  else
    ({ state := { s with creating := true }
       trace := [Effect.preventDefault,
                 Effect.post (API env ++ "/reports") (Payload.report s.formData)
                   env.authHeader] }, true)

/-- The part of `handleCreate` that runs once the POST has settled (lines
87-95); `rendered` is the state the handler was created with. -/
def handleCreate_settle (rendered : ReportsState) (response : Except RequestError Report)
    (current : ReportsState) : Outcome ReportsState :=
  match response with
  | Except.ok data =>
    { state := { current with
                 reports := data :: rendered.reports
                 dialogOpen := false
                 formData := emptyForm
                 creating := false }
      trace := [Effect.toastSuccess "Rapport généré avec succès !"] }
  | Except.error _ =>
    { state := { current with creating := false }
      trace := [Effect.toastError "Erreur lors de la génération du rapport"] }

/-- `handleCreate`, lines 77-96, run without any other handler in between. -/
def handleCreate (env : Env) (s : ReportsState) (response : Except RequestError Report) :
    Outcome ReportsState :=
  let started := handleCreate_submit env s
  if started.2 then
    let settled := handleCreate_settle s response started.1.state
    { state := settled.state, trace := started.1.trace ++ settled.trace }
  else
    started.1

end Reports

/-! ## Mount fetches -/

namespace Analyses

/-- The part of `fetchAnalyses` that runs before the request settles (line
73): the GET is issued and no setter is called. -/
def fetchAnalyses_start (env : Env) (s : AnalysesState) : Outcome AnalysesState :=
  { state := s, trace := [Effect.get (API env ++ "/analyses") env.authHeader] }

/-- The part of `fetchAnalyses` that runs once the GET has settled (lines
74-79), on the state `current` of the component at that time. -/
def fetchAnalyses_settle (response : Except RequestError (List Analysis))
    (current : AnalysesState) : Outcome AnalysesState :=
  match response with
  | Except.ok data =>
    { state := { current with analyses := data, loading := false }, trace := [] }
  | Except.error _ =>
    { state := { current with loading := false }
      trace := [Effect.toastError "Erreur lors du chargement des analyses"] }

/-- `fetchAnalyses`, lines 71-80, run without any other handler in between. -/
def fetchAnalyses (env : Env) (s : AnalysesState)
    (response : Except RequestError (List Analysis)) : Outcome AnalysesState :=
  let started := fetchAnalyses_start env s
  let settled := fetchAnalyses_settle response started.state
  { state := settled.state, trace := started.trace ++ settled.trace }

/-- How the body of `fetchAnalyses` ends: the `catch` block (a notice) and
the `finally` block (a setter) end normally. -/
def fetchAnalyses_completion (response : Except RequestError (List Analysis)) : Completion :=
  tryCatchFinally (awaitCompletion response) (fun _ => Completion.normal) Completion.normal

/-- How the body of `handleCreate` ends once validation has passed (lines
89-113). -/
def handleCreate_completion (response : Except RequestError Analysis) : Completion :=
  tryCatchFinally (awaitCompletion response) (fun _ => Completion.normal) Completion.normal

/-- How the body of `handleDelete` ends once the user has confirmed (lines
119-125); the statement has no `finally`. -/
def handleDelete_completion (response : Except RequestError Unit) : Completion :=
  tryCatchFinally (awaitCompletion response) (fun _ => Completion.normal) Completion.normal

end Analyses

namespace Reports

/-- What `Promise.all` of the two GETs of `fetchData` settles with: both
sequences when both requests are fulfilled, else a rejection (whose value
the handler does not read). -/
def promiseAll (reportsRes : Except RequestError (List Report))
    (analysesRes : Except RequestError (List Analysis)) :
    Except RequestError (List Report × List Analysis) :=
  match reportsRes, analysesRes with
  | Except.ok reports, Except.ok analyses => Except.ok (reports, analyses)
  | Except.error e, _ => Except.error e
  | Except.ok _, Except.error e => Except.error e

/-- The part of `fetchData` that runs before the requests settle (lines
64-67): both GETs are issued. -/
def fetchData_start (env : Env) (s : ReportsState) : Outcome ReportsState :=
  { state := s
    trace := [Effect.get (API env ++ "/reports") env.authHeader,
              Effect.get (API env ++ "/analyses") env.authHeader] }

/-- The part of `fetchData` that runs once `Promise.all` has settled (lines
68-74). -/
def fetchData_settle (reportsRes : Except RequestError (List Report))
    (analysesRes : Except RequestError (List Analysis)) (current : ReportsState) :
    Outcome ReportsState :=
  match promiseAll reportsRes analysesRes with
  | Except.ok (reports, analyses) =>
    { state := { current with reports := reports, analyses := analyses, loading := false }
      trace := [] }
  | Except.error _ =>
    { state := { current with loading := false }
      trace := [Effect.toastError "Erreur lors du chargement"] }

/-- `fetchData`, lines 62-75, run without any other handler in between. -/
def fetchData (env : Env) (s : ReportsState) (reportsRes : Except RequestError (List Report))
    (analysesRes : Except RequestError (List Analysis)) : Outcome ReportsState :=
  let started := fetchData_start env s
  let settled := fetchData_settle reportsRes analysesRes started.state
  { state := settled.state, trace := started.trace ++ settled.trace }

/-- How the body of `fetchData` ends. -/
def fetchData_completion (reportsRes : Except RequestError (List Report))
    (analysesRes : Except RequestError (List Analysis)) : Completion :=
  tryCatchFinally (awaitCompletion (promiseAll reportsRes analysesRes))
    (fun _ => Completion.normal) Completion.normal

/-- How the body of `handleCreate` ends once validation has passed (lines
84-95). -/
def handleCreate_completion (response : Except RequestError Report) : Completion :=
  tryCatchFinally (awaitCompletion response) (fun _ => Completion.normal) Completion.normal

end Reports

/-! ## The opportunities view (`pages/Opportunities.js`) -/

/-- The `useState` cells of the `Opportunities` component, lines 41-43. -/
structure OpportunitiesState where
  opportunities : List Opportunity
  loading : Bool
  filter : String
  deriving DecidableEq, Repr

/-- The object `stats` of lines 66-71. -/
structure OpportunityStats where
  total : Nat
  high : Nat
  medium : Nat
  low : Nat
  deriving DecidableEq, Repr

namespace Opportunities

/-- The initial values of the `useState` cells. -/
def initialState : OpportunitiesState :=
  { opportunities := [], loading := true, filter := "all" }

/-- The part of `fetchOpportunities` that runs before the request settles
(line 52). -/
def fetchOpportunities_start (env : Env) (s : OpportunitiesState) :
    Outcome OpportunitiesState :=
  { state := s, trace := [Effect.get (API env ++ "/opportunities") env.authHeader] }

/-- The part of `fetchOpportunities` that runs once the GET has settled
(lines 53-58). -/
def fetchOpportunities_settle (response : Except RequestError (List Opportunity))
    (current : OpportunitiesState) : Outcome OpportunitiesState :=
  match response with
  | Except.ok data =>
    { state := { current with opportunities := data, loading := false }, trace := [] }
  | Except.error _ =>
    { state := { current with loading := false }
      trace := [Effect.toastError "Erreur lors du chargement des opportunités"] }

/-- `fetchOpportunities`, lines 50-59, run without any other handler in
between. -/
def fetchOpportunities (env : Env) (s : OpportunitiesState)
    (response : Except RequestError (List Opportunity)) : Outcome OpportunitiesState :=
  let started := fetchOpportunities_start env s
  let settled := fetchOpportunities_settle response started.state
  { state := settled.state, trace := started.trace ++ settled.trace }

/-- How the body of `fetchOpportunities` ends. -/
def fetchOpportunities_completion (response : Except RequestError (List Opportunity)) :
    Completion :=
  tryCatchFinally (awaitCompletion response) (fun _ => Completion.normal) Completion.normal

/-- `filteredOpportunities`, lines 61-64. -/
def filteredOpportunities (opportunities : List Opportunity) (filter : String) :
    List Opportunity :=
  opportunities.filter (fun opp => if filter = "all" then true else opp.priority == filter)

/-- `stats`, lines 66-71. -/
def stats (opportunities : List Opportunity) : OpportunityStats :=
  { total := opportunities.length
    high := (opportunities.filter (fun o => o.priority == "high")).length
    medium := (opportunities.filter (fun o => o.priority == "medium")).length
    low := (opportunities.filter (fun o => o.priority == "low")).length }

/-- What one render computes at lines 61-71: the two derived values,
together with the state after and the effects performed, of which there are
none (no setter and no request is called there). -/
def derive (s : OpportunitiesState) :
    Outcome OpportunitiesState × List Opportunity × OpportunityStats :=
  ({ state := s, trace := [] }, filteredOpportunities s.opportunities s.filter,
    stats s.opportunities)

end Opportunities

/-! ## The dashboard view (`pages/Dashboard.js`) -/

/-- The statistics object the dashboard reads. -/
structure DashboardStats where
  total_analyses : Nat
  total_opportunities : Nat
  total_reports : Nat
  high_priority_opportunities : Nat
  recent_analyses : List Analysis
  top_opportunities : List Opportunity
  deriving DecidableEq, Repr

/-- The `useState` cells of the `Dashboard` component, lines 49-50. -/
structure DashboardState where
  stats : Option DashboardStats
  loading : Bool
  deriving DecidableEq, Repr

namespace Dashboard

/-- The initial values of the `useState` cells. -/
def initialState : DashboardState :=
  { stats := none, loading := true }

/-- The part of `fetchStats` that runs before the request settles (line 59). -/
def fetchStats_start (env : Env) (s : DashboardState) : Outcome DashboardState :=
  { state := s, trace := [Effect.get (API env ++ "/dashboard/stats") env.authHeader] }

/-- The part of `fetchStats` that runs once the GET has settled (lines
60-65). -/
def fetchStats_settle (response : Except RequestError DashboardStats)
    (current : DashboardState) : Outcome DashboardState :=
  match response with
  | Except.ok data =>
    { state := { current with stats := some data, loading := false }, trace := [] }
  | Except.error _ =>
    { state := { current with loading := false }
      trace := [Effect.toastError "Erreur lors du chargement des statistiques"] }

/-- `fetchStats`, lines 57-66, run without any other handler in between. -/
def fetchStats (env : Env) (s : DashboardState)
    (response : Except RequestError DashboardStats) : Outcome DashboardState :=
  let started := fetchStats_start env s
  let settled := fetchStats_settle response started.state
  { state := settled.state, trace := started.trace ++ settled.trace }

/-- How the body of `fetchStats` ends. -/
def fetchStats_completion (response : Except RequestError DashboardStats) : Completion :=
  tryCatchFinally (awaitCompletion response) (fun _ => Completion.normal) Completion.normal

end Dashboard

/-! ## The login and registration pages (`pages/Login.js`, `pages/Register.js`) -/

/-- The `useState` cells of the `Login` component, lines 12-14. -/
structure LoginState where
  email : String
  password : String
  loading : Bool
  deriving DecidableEq, Repr

/-- The `useState` cells of the `Register` component, lines 12-18. -/
structure RegisterState where
  formData : RegisterForm
  loading : Bool
  deriving DecidableEq, Repr

namespace Login

/-- The initial values of the `useState` cells. -/
def initialState : LoginState :=
  { email := "", password := "", loading := false }

/-- `handleSubmit`, lines 18-35 of `Login.js`; `response` is what the call
`login(email, password)` settles with, consulted only when the call is made. -/
def handleSubmit (s : LoginState) (response : Except RequestError (String × UserProfile)) :
    Outcome LoginState :=
  if s.email = "" ∨ s.password = "" then
    { state := s
      trace := [Effect.preventDefault, Effect.toastError "Veuillez remplir tous les champs"] }
  else
    match response with
    | Except.ok session =>
      { state := { s with loading := false }
        trace := [Effect.preventDefault,
                  Effect.login s.email s.password (some session),
                  Effect.toastSuccess "Connexion réussie !",
                  Effect.navigate "/dashboard"] }
    | Except.error error =>
      { state := { s with loading := false }
        trace := [Effect.preventDefault,
                  Effect.login s.email s.password none,
                  Effect.toastError (detailOr error "Erreur de connexion")] }

end Login

namespace Register

/-- The initial values of the `useState` cells. -/
def initialState : RegisterState :=
  { formData := { full_name := "", company_name := "", email := "", password := "" }
    loading := false }

/-- `handleSubmit`, lines 26-50 of `Register.js`; `response` is what the
call `register(formData)` settles with, consulted only when the call is
made. -/
def handleSubmit (s : RegisterState)
    (response : Except RequestError (String × UserProfile)) : Outcome RegisterState :=
  if s.formData.full_name = "" ∨ s.formData.company_name = "" ∨ s.formData.email = "" ∨
      s.formData.password = "" then
    { state := s
      trace := [Effect.preventDefault, Effect.toastError "Veuillez remplir tous les champs"] }
  else if jsLength s.formData.password < 6 then
    { state := s
      trace := [Effect.preventDefault,
                Effect.toastError "Le mot de passe doit contenir au moins 6 caractères"] }
  else
    match response with
    | Except.ok session =>
      { state := { s with loading := false }
        trace := [Effect.preventDefault,
                  Effect.register s.formData (some session),
                  Effect.toastSuccess "Compte créé avec succès !",
                  Effect.navigate "/dashboard"] }
    | Except.error error =>
      { state := { s with loading := false }
        trace := [Effect.preventDefault,
                  Effect.register s.formData none,
                  Effect.toastError (detailOr error "Erreur lors de l\x27inscription")] }

end Register

/-! ## The route table (`App`, lines 50-99 of `App.js`) -/

/-- The page components the routes mount. -/
inductive View where
  | landing
  | login
  | register
  | dashboard
  | analyses
  | opportunities
  | reports
  deriving DecidableEq, Repr

/-- What a route shows: the output of its gate, or a page, inside
`DashboardLayout` or not. -/
inductive Screen where
  | spinner
  | navigate (path : String) (replace : Bool)
  | page (view : View) (inLayout : Bool)
  deriving DecidableEq, Repr

/-- A gate around an element: the gate output, with the element in the
place of `children`. -/
def gated (gate : Rendered) (child : Screen) : Screen :=
  match gate with
  | Rendered.spinner => Screen.spinner
  | Rendered.navigate path replace => Screen.navigate path replace
  | Rendered.children => child

/-- The `element` of the `Route` whose `path` is the given one, lines 55-93;
`none` when the table has no such route. -/
def routeElement (auth : AuthValue) (path : String) : Option Screen :=
  if path = "/" then some (Screen.page View.landing false)
  else if path = "/login" then some (gated (PublicRoute auth) (Screen.page View.login false))
  else if path = "/register" then
    some (gated (PublicRoute auth) (Screen.page View.register false))
  else if path = "/dashboard" then
    some (gated (ProtectedRoute auth) (Screen.page View.dashboard true))
  else if path = "/analyses" then
    some (gated (ProtectedRoute auth) (Screen.page View.analyses true))
  else if path = "/opportunities" then
    some (gated (ProtectedRoute auth) (Screen.page View.opportunities true))
  else if path = "/reports" then
    some (gated (ProtectedRoute auth) (Screen.page View.reports true))
  else none

/-! ## The reports view as a state machine -/

namespace Reports

/-- The `value` fields of the constant `reportTypes`, lines 38-42. -/
def reportTypes : List String :=
  ["market_overview", "competitor_analysis", "opportunity_report"]

/-- `openReport`, lines 98-101. -/
def openReport (s : ReportsState) (report : Report) : ReportsState :=
  { s with selectedReport := some report, viewOpen := true }

/-- The `onClick` of the download button, lines 251-259: a text blob of the
content is offered under the name of the title followed by ".txt", and a
success notice is shown; no setter is called. -/
def downloadOnClick (s : ReportsState) (report : Report) : Outcome ReportsState :=
  { state := s
    trace := [Effect.download (report.title ++ ".txt") report.content "text/plain",
              Effect.toastSuccess "Rapport téléchargé"] }

/-- The `onValueChange` of the analysis `Select`, line 150. -/
def setAnalysisId (s : ReportsState) (value : String) : ReportsState :=
  { s with formData := { s.formData with analysis_id := value } }

/-- The `onValueChange` of the report type `Select`, line 169. -/
def setReportType (s : ReportsState) (value : String) : ReportsState :=
  { s with formData := { s.formData with report_type := value } }

end Reports

/-- What can happen in the reports view once its mount fetch has settled:
the user picks one of the rendered items of a `Select`, opens or closes a
dialog, opens or downloads one of the rendered reports, submits the form,
or a pending POST settles. -/
inductive ReportsEvent where
  /-- the `SelectItem` of the analysis at this position of `analyses` -/
  | selectAnalysis (index : Nat)
  /-- the `SelectItem` of the entry at this position of `reportTypes` -/
  | selectReportType (index : Nat)
  /-- `onOpenChange` of the creation dialog, or the button that opens it -/
  | setDialogOpen (isOpen : Bool)
  /-- `onOpenChange` of the reading dialog -/
  | setViewOpen (isOpen : Bool)
  /-- the button "Lire" of the report at this position of `reports` -/
  | openReport (index : Nat)
  /-- the download button of the report at this position of `reports` -/
  | download (index : Nat)
  /-- the form is submitted: `handleCreate` runs up to its `await` -/
  | createSubmit
  /-- a pending POST settles: the rest of a `handleCreate` runs, with the
  state its closure was created with -/
  | createSettle (rendered : ReportsState) (response : Except RequestError Report)

namespace Reports

/-- The state of the reports view after one event. -/
def step (env : Env) (s : ReportsState) : ReportsEvent → ReportsState
  | ReportsEvent.selectAnalysis index =>
    match s.analyses[index]? with
    | some analysis => setAnalysisId s analysis.id
    | none => s
  | ReportsEvent.selectReportType index =>
    match reportTypes[index]? with
    | some value => setReportType s value
    | none => s
  | ReportsEvent.setDialogOpen isOpen => { s with dialogOpen := isOpen }
  | ReportsEvent.setViewOpen isOpen => { s with viewOpen := isOpen }
  | ReportsEvent.openReport index =>
    match s.reports[index]? with
    | some report => openReport s report
    | none => s
  | ReportsEvent.download index =>
    match s.reports[index]? with
    | some report => (downloadOnClick s report).state
    | none => s
  | ReportsEvent.createSubmit => (handleCreate_submit env s).1.state
  | ReportsEvent.createSettle rendered response =>
    (handleCreate_settle rendered response s).state

/-- The state of the reports view after its mount fetch has settled with the
two given responses and the given events have happened, oldest first.  The
page shows a spinner until the fetch has settled, so no event comes before,
and `fetchData` is called by the mount effect only. -/
def run (env : Env) (reportsRes : Except RequestError (List Report))
    (analysesRes : Except RequestError (List Analysis)) (events : List ReportsEvent) :
    ReportsState :=
  events.foldl (step env) (fetchData env initialState reportsRes analysesRes).state

/-- The `analysis_id` of the form is empty or the id of a loaded analysis. -/
def FormAnalysisKnown (s : ReportsState) : Prop :=
  s.formData.analysis_id = "" ∨ ∃ a ∈ s.analyses, a.id = s.formData.analysis_id

end Reports

/-- A sequence of characters neither starts nor ends with white space. -/
def IsTrimmed (cs : List Char) : Prop :=
  (∀ c, cs.head? = some c → isJsWhiteSpace c = false) ∧
  (∀ c, cs.getLast? = some c → isJsWhiteSpace c = false)

/-! ## Concrete values used to instantiate the theorems -/

/-- A sample user. -/
def sampleUser : UserProfile :=
  { id := "u1", full_name := "Ada", company_name := "Acme", email := "a@b.com" }

/-- A sample environment. -/
def sampleEnv : Env :=
  { backendUrl := "http://localhost:8001", authHeader := { authorization := some "Bearer t1" } }

/-- A sample analysis with a given id and title. -/
def sampleAnalysis (id title : String) : Analysis :=
  { id := id, title := title, industry := "SaaS", target_market := "PME", competitors := [],
    description := "", status := "pending", ai_insights := none, opportunities := [],
    created_at := "2024-01-01" }

/-- A sample report with a given id. -/
def sampleReport (id : String) : Report :=
  { id := id, title := "Rapport", report_type := "market_overview", content := "texte",
    created_at := "2024-01-01" }

/-- An analyses view holding the given list, with a filled-in form. -/
def analysesView (items : List Analysis) : AnalysesState :=
  { Analyses.initialState with
    analyses := items
    loading := false
    dialogOpen := true
    formData := { title := "Marché", industry := "SaaS", target_market := "PME",
                  competitors := "Acme, Globex", description := "" } }

/-- A reports view holding the given list, with a filled-in form. -/
def reportsView (items : List Report) : ReportsState :=
  { Reports.initialState with
    reports := items
    analyses := [sampleAnalysis "a1" "Marché"]
    loading := false
    dialogOpen := true
    formData := { analysis_id := "a1", report_type := "market_overview" } }

/-- A sample opportunity with a given id and priority. -/
def sampleOpportunity (id priority : String) : Opportunity :=
  { id := id, title := "Piste", description := "", potential_revenue := "10k",
    priority := priority, risk_level := "low", analysis_title := "Marché" }

/-- An authenticated auth value, after initialization. -/
def authenticatedAuth : AuthValue :=
  { user := some sampleUser, token := some "t1", loading := false }

/-- An anonymous auth value, after initialization. -/
def anonymousAuth : AuthValue :=
  { user := none, token := none, loading := false }

/-- A rejection with the authorization-failure status 401. -/
def unauthorizedError : RequestError :=
  { status := some 401, detail := some "Invalid token" }

/-- A rejection without a response (a network failure). -/
def networkError : RequestError :=
  { status := none, detail := none }

/-- A filled-in login page. -/
def loginPage : LoginState :=
  { email := "a@b.com", password := "secret1", loading := false }

/-- A filled-in registration page. -/
def registerPage : RegisterState :=
  { formData := { full_name := "Ada", company_name := "Acme", email := "a@b.com",
                  password := "secret1" }
    loading := false }

/-- A rejection whose `detail` is present and is the empty string. -/
def emptyDetailError : RequestError :=
  { status := some 400, detail := some "" }

/-! ## Theorems: route gates -/

/-- C1: `ProtectedRoute` renders its children if and only if loading is
false and a user is present; in every state with loading false and no user
it renders the redirect to "/login" and not its children. -/
theorem protectedRoute_children_iff (auth : AuthValue) :
    (ProtectedRoute auth = Rendered.children ↔
      (auth.loading = false ∧ auth.user.isSome = true)) ∧
    (auth.loading = false → auth.user = none →
      ProtectedRoute auth = Rendered.navigate "/login" true ∧
      ProtectedRoute auth ≠ Rendered.children) := by
  obtain ⟨user, token, loading⟩ := auth
  cases loading <;> cases user <;> simp [ProtectedRoute]

/-- C1 at the anonymous state: the redirect to "/login" is rendered. -/
theorem protectedRoute_children_iff_witness :
    ProtectedRoute { user := none, token := none, loading := false }
        = Rendered.navigate "/login" true ∧
    ProtectedRoute { user := none, token := none, loading := false } ≠ Rendered.children :=
  (protectedRoute_children_iff { user := none, token := none, loading := false }).2 rfl rfl

/-- C2: in every state with loading false, `PublicRoute` renders its
children if and only if no user is present; when a user is present it
renders the redirect to "/dashboard" and not its children. -/
theorem publicRoute_children_iff (auth : AuthValue) (h : auth.loading = false) :
    (PublicRoute auth = Rendered.children ↔ auth.user = none) ∧
    (auth.user.isSome = true →
      PublicRoute auth = Rendered.navigate "/dashboard" true ∧
      PublicRoute auth ≠ Rendered.children) := by
  obtain ⟨user, token, loading⟩ := auth
  cases loading <;> cases user <;> simp_all [PublicRoute]

/-- C2 at an authenticated state: the redirect to "/dashboard" is rendered. -/
theorem publicRoute_children_iff_witness :
    PublicRoute { user := some sampleUser, token := some "t1", loading := false }
        = Rendered.navigate "/dashboard" true ∧
    PublicRoute { user := some sampleUser, token := some "t1", loading := false }
        ≠ Rendered.children :=
  (publicRoute_children_iff
    { user := some sampleUser, token := some "t1", loading := false } rfl).2 rfl

/-- C3: while loading is true, whatever the user is, both gates return the
loading indicator: neither output is a redirect and neither is the
children. -/
theorem gates_defer_while_loading (auth : AuthValue) (h : auth.loading = true) :
    ProtectedRoute auth = Rendered.spinner ∧ PublicRoute auth = Rendered.spinner ∧
    (ProtectedRoute auth).isRedirect = false ∧ (PublicRoute auth).isRedirect = false ∧
    ProtectedRoute auth ≠ Rendered.children ∧ PublicRoute auth ≠ Rendered.children := by
  obtain ⟨user, token, loading⟩ := auth
  cases loading <;> simp_all [ProtectedRoute, PublicRoute, Rendered.isRedirect]

/-- C3 at a loading state that already holds a user. -/
theorem gates_defer_while_loading_witness :
    ProtectedRoute { user := some sampleUser, token := some "t1", loading := true }
        = Rendered.spinner ∧
    PublicRoute { user := some sampleUser, token := some "t1", loading := true }
        = Rendered.spinner :=
  ⟨(gates_defer_while_loading
      { user := some sampleUser, token := some "t1", loading := true } rfl).1,
   (gates_defer_while_loading
      { user := some sampleUser, token := some "t1", loading := true } rfl).2.1⟩

/-- Session operations never set `loading` again. -/
theorem runSession_loading (auth : AuthValue) (ops : List SessionOp) :
    (runSession auth ops).loading = auth.loading := by
  induction ops generalizing auth with
  | nil => rfl
  | cons op rest ih =>
    have step : (SessionOp.apply auth op).loading = auth.loading := by
      cases op <;> simp [SessionOp.apply, login, handleLogout, logout]
    simpa [runSession, step] using ih (SessionOp.apply auth op)

/-- C4: after initialization and any finite sequence of successful logins,
failed logins and logouts, the session is never initializing again, the
protected gate does not render its children while the session is anonymous,
and the public-only gate does not render its children while the session is
authenticated.  Every state reached along a run is the final state of a
shorter run, so the statement covers all of them. -/
theorem gates_sound_on_every_run (stored : Option (String × UserProfile))
    (ops : List SessionOp) :
    sessionState (runSession (initializeSession stored) ops) ≠ SessionState.initializing ∧
    (sessionState (runSession (initializeSession stored) ops) = SessionState.anonymous →
      ProtectedRoute (runSession (initializeSession stored) ops) ≠ Rendered.children) ∧
    (sessionState (runSession (initializeSession stored) ops) = SessionState.authenticated →
      PublicRoute (runSession (initializeSession stored) ops) ≠ Rendered.children) := by
  have hl : (runSession (initializeSession stored) ops).loading = false := by
    rw [runSession_loading]
    cases stored with
    | none => rfl
    | some p => rfl
  generalize runSession (initializeSession stored) ops = auth at hl ⊢
  obtain ⟨user, token, loading⟩ := auth
  cases user <;> simp_all [sessionState, ProtectedRoute, PublicRoute]

/-- C4 on the run login failed, login succeeded, logout from an empty
credential store: the session ends anonymous and the protected gate does
not render its children. -/
theorem gates_sound_on_every_run_witness :
    ProtectedRoute (runSession (initializeSession none)
      [SessionOp.loginFailed "Invalid credentials", SessionOp.loginOk "t1" sampleUser,
       SessionOp.logoutClick]) ≠ Rendered.children :=
  (gates_sound_on_every_run none
    [SessionOp.loginFailed "Invalid credentials", SessionOp.loginOk "t1" sampleUser,
     SessionOp.logoutClick]).2.1 (by decide)

/-! ## Theorems: create and remove -/

/-- C5: after a successful create in the analyses view and in the reports
view (the form passes validation and the POST returns the resource `r`), the
new list is `r` followed by the prior list in its original order, so `r` is
at the front and the length has grown by one. -/
theorem create_success_prepends (env : Env) (s : AnalysesState) (t : ReportsState)
    (r : Analysis) (q : Report)
    (hs : s.formData.title ≠ "" ∧ s.formData.industry ≠ "" ∧ s.formData.target_market ≠ "")
    (ht : t.formData.analysis_id ≠ "" ∧ t.formData.report_type ≠ "") :
    ((Analyses.handleCreate env s (Except.ok r)).state.analyses = r :: s.analyses ∧
      (Analyses.handleCreate env s (Except.ok r)).state.analyses.head? = some r ∧
      (Analyses.handleCreate env s (Except.ok r)).state.analyses.length
        = s.analyses.length + 1) ∧
    ((Reports.handleCreate env t (Except.ok q)).state.reports = q :: t.reports ∧
      (Reports.handleCreate env t (Except.ok q)).state.reports.head? = some q ∧
      (Reports.handleCreate env t (Except.ok q)).state.reports.length
        = t.reports.length + 1) := by
  obtain ⟨h1, h2, h3⟩ := hs
  obtain ⟨h4, h5⟩ := ht
  simp [Analyses.handleCreate, Analyses.handleCreate_submit, Analyses.handleCreate_settle,
    Reports.handleCreate, Reports.handleCreate_submit, Reports.handleCreate_settle,
    h1, h2, h3, h4, h5]

/-- C5 on a one-item analyses list and a one-item reports list. -/
theorem create_success_prepends_witness :
    (Analyses.handleCreate sampleEnv (analysesView [sampleAnalysis "a1" "Un"])
        (Except.ok (sampleAnalysis "a2" "Deux"))).state.analyses
      = [sampleAnalysis "a2" "Deux", sampleAnalysis "a1" "Un"] ∧
    (Reports.handleCreate sampleEnv (reportsView [sampleReport "r1"])
        (Except.ok (sampleReport "r2"))).state.reports
      = [sampleReport "r2", sampleReport "r1"] :=
  ⟨(create_success_prepends sampleEnv (analysesView [sampleAnalysis "a1" "Un"])
      (reportsView [sampleReport "r1"]) (sampleAnalysis "a2" "Deux") (sampleReport "r2")
      (by decide) (by decide)).1.1,
   (create_success_prepends sampleEnv (analysesView [sampleAnalysis "a1" "Un"])
      (reportsView [sampleReport "r1"]) (sampleAnalysis "a2" "Deux") (sampleReport "r2")
      (by decide) (by decide)).2.1⟩

/-- The list left by a confirmed, successful `handleDelete`. -/
theorem handleDelete_success_analyses (env : Env) (s : AnalysesState) (id : String) :
    (Analyses.handleDelete env s id true (Except.ok ())).state.analyses
      = s.analyses.filter (fun a => a.id != id) := by
  simp [Analyses.handleDelete, Analyses.handleDelete_ask, Analyses.handleDelete_settle]

/-- Filtering out an id shortens a list by the number of items carrying it. -/
theorem length_filter_id_ne (l : List Analysis) (id : String) :
    (l.filter (fun a => a.id != id)).length + l.countP (fun a => a.id == id) = l.length := by
  induction l with
  | nil => rfl
  | cons a rest ih =>
    by_cases h : a.id = id
    · simp [List.filter_cons, List.countP_cons, h]
      omega
    · simp [List.filter_cons, List.countP_cons, h]
      omega

/-- C6, counterexample: on a list holding two items with the id "a1", a
confirmed and successful remove of "a1" leaves the empty list, so the length
has gone from 2 to 0 and not to 1. -/
theorem remove_length_counterexample :
    (∃ a ∈ (analysesView [sampleAnalysis "a1" "Un", sampleAnalysis "a1" "Deux"]).analyses,
      a.id = "a1") ∧
    (analysesView [sampleAnalysis "a1" "Un", sampleAnalysis "a1" "Deux"]).analyses.length = 2 ∧
    (Analyses.handleDelete sampleEnv
      (analysesView [sampleAnalysis "a1" "Un", sampleAnalysis "a1" "Deux"]) "a1" true
      (Except.ok ())).state.analyses.length = 0 ∧
    (Analyses.handleDelete sampleEnv
      (analysesView [sampleAnalysis "a1" "Un", sampleAnalysis "a1" "Deux"]) "a1" true
      (Except.ok ())).state.analyses.length + 1
      ≠ (analysesView [sampleAnalysis "a1" "Un", sampleAnalysis "a1" "Deux"]).analyses.length := by
  refine ⟨⟨sampleAnalysis "a1" "Un", ?_, rfl⟩, ?_, ?_, ?_⟩ <;> decide

/-- C6, amended: after a confirmed and successful remove of `id` in the
analyses view, for every list in which exactly one item has that id, no item
with that id remains and the length has decreased by exactly one. -/
theorem remove_success_unique_id (env : Env) (s : AnalysesState) (id : String)
    (h : s.analyses.countP (fun a => a.id == id) = 1) :
    (∀ a ∈ (Analyses.handleDelete env s id true (Except.ok ())).state.analyses, a.id ≠ id) ∧
    (Analyses.handleDelete env s id true (Except.ok ())).state.analyses.length + 1
      = s.analyses.length := by
  rw [handleDelete_success_analyses]
  constructor
  · intro a ha
    simpa using (List.mem_filter.mp ha).2
  · have := length_filter_id_ne s.analyses id
    omega

/-- C6 amended, on a two-item list with distinct ids. -/
theorem remove_success_unique_id_witness :
    (Analyses.handleDelete sampleEnv
      (analysesView [sampleAnalysis "a1" "Un", sampleAnalysis "a2" "Deux"]) "a1" true
      (Except.ok ())).state.analyses.length + 1 = 2 :=
  (remove_success_unique_id sampleEnv
    (analysesView [sampleAnalysis "a1" "Un", sampleAnalysis "a2" "Deux"]) "a1"
    (by decide)).2

/-- C7: a create whose POST is rejected (analyses or reports) and a remove
whose DELETE is rejected leave the list of the view equal to the list before
the operation, for every state, every id, every answer to the confirmation
and every error. -/
theorem failed_request_keeps_list (env : Env) (s : AnalysesState) (t : ReportsState)
    (id : String) (confirmed : Bool) (err : RequestError) :
    (Analyses.handleCreate env s (Except.error err)).state.analyses = s.analyses ∧
    (Analyses.handleDelete env s id confirmed (Except.error err)).state.analyses
      = s.analyses ∧
    (Reports.handleCreate env t (Except.error err)).state.reports = t.reports := by
  refine ⟨?_, ?_, ?_⟩
  · simp only [Analyses.handleCreate, Analyses.handleCreate_submit,
      Analyses.handleCreate_settle]
    split_ifs <;> simp_all
  · cases confirmed <;>
      simp [Analyses.handleDelete, Analyses.handleDelete_ask, Analyses.handleDelete_settle]
  · simp only [Reports.handleCreate, Reports.handleCreate_submit,
      Reports.handleCreate_settle]
    split_ifs <;> simp_all

/-- C8: in the analyses view, when title, industry or target_market is
empty, `handleCreate` issues no request, leaves the whole state (the list,
the form and the `creating` flag among it) unchanged and emits exactly one
error notice, whatever the backend would have answered. -/
theorem analyses_create_validation (env : Env) (s : AnalysesState)
    (response : Except RequestError Analysis)
    (h : s.formData.title = "" ∨ s.formData.industry = "" ∨ s.formData.target_market = "") :
    requests (Analyses.handleCreate env s response).trace = [] ∧
    (Analyses.handleCreate env s response).state = s ∧
    (Analyses.handleCreate env s response).state.analyses = s.analyses ∧
    (Analyses.handleCreate env s response).state.formData = s.formData ∧
    (Analyses.handleCreate env s response).state.creating = s.creating ∧
    errorNotices (Analyses.handleCreate env s response).trace
      = [Effect.toastError "Veuillez remplir les champs obligatoires"] ∧
    (errorNotices (Analyses.handleCreate env s response).trace).length = 1 := by
  simp [Analyses.handleCreate, Analyses.handleCreate_submit, h, requests, errorNotices,
    Effect.isRequest, Effect.isErrorNotice]

/-- C8 on a form whose industry is empty while title and market are filled. -/
theorem analyses_create_validation_witness :
    requests (Analyses.handleCreate sampleEnv
      { analysesView [] with
        formData := { title := "Marché", industry := "", target_market := "PME",
                      competitors := "", description := "" } }
      (Except.ok (sampleAnalysis "a1" "Un"))).trace = [] :=
  (analyses_create_validation sampleEnv
    { analysesView [] with
      formData := { title := "Marché", industry := "", target_market := "PME",
                    competitors := "", description := "" } }
    (Except.ok (sampleAnalysis "a1" "Un")) (by decide)).1

/-- C9: in the reports view, when analysis_id or report_type is empty,
`handleCreate` issues no request, leaves the reports list (and the whole
state) unchanged and emits exactly one error notice. -/
theorem reports_create_validation (env : Env) (t : ReportsState)
    (response : Except RequestError Report)
    (h : t.formData.analysis_id = "" ∨ t.formData.report_type = "") :
    requests (Reports.handleCreate env t response).trace = [] ∧
    (Reports.handleCreate env t response).state.reports = t.reports ∧
    (Reports.handleCreate env t response).state = t ∧
    errorNotices (Reports.handleCreate env t response).trace
      = [Effect.toastError "Veuillez sélectionner une analyse et un type de rapport"] ∧
    (errorNotices (Reports.handleCreate env t response).trace).length = 1 := by
  simp [Reports.handleCreate, Reports.handleCreate_submit, h, requests, errorNotices,
    Effect.isRequest, Effect.isErrorNotice]

/-- C9 on a form with an analysis chosen and no report type. -/
theorem reports_create_validation_witness :
    requests (Reports.handleCreate sampleEnv
      { reportsView [] with formData := { analysis_id := "a1", report_type := "" } }
      (Except.ok (sampleReport "r1"))).trace = [] :=
  (reports_create_validation sampleEnv
    { reportsView [] with formData := { analysis_id := "a1", report_type := "" } }
    (Except.ok (sampleReport "r1")) (by decide)).1

/-! ## Theorems: normalising the competitors field -/

/-- Splitting always yields at least one piece. -/
theorem splitChars_ne_nil (sep : Char) (cs : List Char) : splitChars sep cs ≠ [] := by
  cases cs with
  | nil => simp [splitChars]
  | cons c rest =>
    simp only [splitChars]
    split_ifs
    · simp
    · split <;> simp

/-- Joining the pieces with the separator gives the string back. -/
theorem intercalate_splitChars (sep : Char) (cs : List Char) :
    [sep].intercalate (splitChars sep cs) = cs := by
  induction cs with
  | nil => simp [splitChars, List.intercalate]
  | cons c rest ih =>
    simp only [splitChars]
    split_ifs with h
    · obtain ⟨piece, pieces, hp⟩ := List.exists_cons_of_ne_nil (splitChars_ne_nil sep rest)
      rw [hp] at ih ⊢
      simp only [List.intercalate, List.intersperse] at ih ⊢
      simp [h, ← ih]
    · split
      · next hnil => exact absurd hnil (splitChars_ne_nil sep rest)
      · next piece pieces hp =>
        rw [hp] at ih
        cases pieces with
        | nil =>
          simp only [List.intercalate, List.intersperse] at ih ⊢
          simp [← ih]
        | cons q qs =>
          simp only [List.intercalate, List.intersperse] at ih ⊢
          simp [← ih]

/-- No piece of a split contains the separator. -/
theorem sep_not_mem_of_mem_splitChars (sep : Char) (cs piece : List Char)
    (h : piece ∈ splitChars sep cs) : sep ∉ piece := by
  induction cs generalizing piece with
  | nil =>
    simp [splitChars] at h
    simp [h]
  | cons c rest ih =>
    simp only [splitChars] at h
    split_ifs at h with hc
    · rcases List.mem_cons.mp h with h | h
      · simp [h]
      · exact ih piece h
    · split at h
      · next hnil => exact absurd hnil (splitChars_ne_nil sep rest)
      · next p ps hp =>
        rcases List.mem_cons.mp h with h | h
        · have hp1 : sep ∉ p := ih p (by simp [hp])
          subst h
          intro hmem
          rcases List.mem_cons.mp hmem with e | e
          · exact hc e.symm
          · exact hp1 e
        · exact ih piece (by simp [hp, h])

/-- A list is what is left after dropping from the right, followed by what
was dropped. -/
theorem rdropWhile_append_rtakeWhile (p : Char → Bool) (cs : List Char) :
    cs.rdropWhile p ++ cs.rtakeWhile p = cs := by
  have h := congrArg List.reverse (List.takeWhile_append_dropWhile p cs.reverse)
  rw [List.reverse_append, List.reverse_reverse] at h
  exact h

/-- Trimming removes a white-space prefix and a white-space suffix, and
nothing else. -/
theorem trimChars_decomposition (cs : List Char) :
    ∃ pre post : List Char, cs = pre ++ trimChars cs ++ post ∧
      (∀ c ∈ pre, isJsWhiteSpace c = true) ∧ (∀ c ∈ post, isJsWhiteSpace c = true) := by
  refine ⟨cs.takeWhile isJsWhiteSpace,
    (cs.dropWhile isJsWhiteSpace).rtakeWhile isJsWhiteSpace, ?_, ?_, ?_⟩
  · rw [List.append_assoc, trimChars, rdropWhile_append_rtakeWhile,
      List.takeWhile_append_dropWhile]
  · intro c hc
    exact List.mem_takeWhile_imp hc
  · intro c hc
    exact List.mem_rtakeWhile_imp hc

/-- A trimmed string neither starts nor ends with white space. -/
theorem isTrimmed_trimChars (cs : List Char) : IsTrimmed (trimChars cs) := by
  constructor
  · intro c hc
    have hne : trimChars cs ≠ [] := by
      intro h
      simp [h] at hc
    have hpre : trimChars cs <+: cs.dropWhile isJsWhiteSpace :=
      List.rdropWhile_prefix isJsWhiteSpace (cs.dropWhile isJsWhiteSpace)
    have hne2 : cs.dropWhile isJsWhiteSpace ≠ [] := by
      intro h
      rw [h] at hpre
      exact hne (List.prefix_nil.mp hpre)
    have hhead := hpre.head hne
    have hnot := List.head_dropWhile_not isJsWhiteSpace cs hne2
    rw [List.head?_eq_head hne] at hc
    have hc2 : (trimChars cs).head hne = c := Option.some.inj hc
    rw [← hc2, hhead]
    exact hnot
  · intro c hc
    have hne : (cs.dropWhile isJsWhiteSpace).rdropWhile isJsWhiteSpace ≠ [] := by
      intro h
      simp [trimChars, h] at hc
    have hlast := List.rdropWhile_last_not isJsWhiteSpace _ hne
    have hc1 : ((cs.dropWhile isJsWhiteSpace).rdropWhile isJsWhiteSpace).getLast? = some c := hc
    rw [List.getLast?_eq_getLast _ hne] at hc1
    have hc2 := Option.some.inj hc1
    rw [hc2] at hlast
    simpa using hlast

/-- Trimming keeps a sublist of the characters. -/
theorem trimChars_sublist (cs : List Char) : (trimChars cs).Sublist cs :=
  (List.rdropWhile_prefix isJsWhiteSpace (cs.dropWhile isJsWhiteSpace)).sublist.trans
    (List.dropWhile_sublist isJsWhiteSpace)

/-- The characters of the pieces of `jsSplit` are the pieces of `splitChars`. -/
theorem jsSplit_data (sep : Char) (s : String) :
    (jsSplit sep s).map String.data = splitChars sep s.data := by
  simp [jsSplit, List.map_map, Function.comp_def]

/-- C10: the competitors value of the payload that create-analysis posts is
the comma-separated string of the form split on every comma (the pieces
joined by commas give the string back and no piece holds a comma), each
piece trimmed of leading and trailing white space (what is removed on either
side is white space only), in the original order; the empty string gives the
empty sequence, "Acme, Globex" gives ["Acme", "Globex"], and every element
of the result has no leading or trailing white space and holds no comma. -/
theorem competitors_split_and_trimmed (env : Env) (s : AnalysesState)
    (response : Except RequestError Analysis) :
    (s.formData.title ≠ "" ∧ s.formData.industry ≠ "" ∧ s.formData.target_market ≠ "" →
      requests (Analyses.handleCreate env s response).trace
        = [Effect.post (API env ++ "/analyses")
            (Payload.analysis (Analyses.createPayload s.formData)) env.authHeader]) ∧
    (s.formData.competitors = "" → (Analyses.createPayload s.formData).competitors = []) ∧
    (s.formData.competitors ≠ "" → ∃ pieces : List String,
      [','].intercalate (pieces.map String.data) = s.formData.competitors.data ∧
      (∀ p ∈ pieces, ',' ∉ p.data) ∧
      (Analyses.createPayload s.formData).competitors = pieces.map jsTrim ∧
      (∀ p ∈ pieces, ∃ pre post : List Char,
        p.data = pre ++ (jsTrim p).data ++ post ∧
        (∀ c ∈ pre, isJsWhiteSpace c = true) ∧ (∀ c ∈ post, isJsWhiteSpace c = true))) ∧
    (s.formData.competitors = "Acme, Globex" →
      (Analyses.createPayload s.formData).competitors = ["Acme", "Globex"]) ∧
    (∀ e ∈ (Analyses.createPayload s.formData).competitors,
      IsTrimmed e.data ∧ ',' ∉ e.data) := by
  refine ⟨?_, ?_, ?_, ?_, ?_⟩
  · rintro ⟨h1, h2, h3⟩
    cases response <;>
      simp [Analyses.handleCreate, Analyses.handleCreate_submit, Analyses.handleCreate_settle,
        h1, h2, h3, requests, Effect.isRequest]
  · intro h
    simp [Analyses.createPayload, competitorsPayload, h]
  · intro h
    refine ⟨jsSplit ',' s.formData.competitors, ?_, ?_, ?_, ?_⟩
    · rw [jsSplit_data, intercalate_splitChars]
    · intro p hp
      have hmem : p.data ∈ (jsSplit ',' s.formData.competitors).map String.data :=
        List.mem_map_of_mem _ hp
      rw [jsSplit_data] at hmem
      exact sep_not_mem_of_mem_splitChars ',' _ _ hmem
    · simp [Analyses.createPayload, competitorsPayload, h]
    · intro p _
      exact trimChars_decomposition p.data
  · intro h
    simp only [Analyses.createPayload, h]
    decide
  · intro e he
    by_cases h : s.formData.competitors = ""
    · simp [Analyses.createPayload, competitorsPayload, h] at he
    · simp only [Analyses.createPayload, competitorsPayload, h, if_false, List.mem_map] at he
      obtain ⟨p, hp, rfl⟩ := he
      refine ⟨isTrimmed_trimChars p.data, ?_⟩
      have hmem : p.data ∈ (jsSplit ',' s.formData.competitors).map String.data :=
        List.mem_map_of_mem _ hp
      rw [jsSplit_data] at hmem
      have hno := sep_not_mem_of_mem_splitChars ',' _ _ hmem
      intro hin
      exact hno ((trimChars_sublist p.data).subset hin)

/-- C10 on the form whose competitors field is "Acme, Globex". -/
theorem competitors_split_and_trimmed_witness :
    (Analyses.createPayload (analysesView []).formData).competitors = ["Acme", "Globex"] :=
  (competitors_split_and_trimmed sampleEnv (analysesView [])
    (Except.ok (sampleAnalysis "a1" "Un"))).2.2.2.1 rfl

/-! ## Theorems: failed list requests -/

/-- C11, counterexample: when its list request is rejected with the
authorization-failure status 401, the handler of the analyses, of the
opportunities and of the dashboard view performs the GET and one error
notice and nothing else: the trace holds no call into the auth context, in
particular no `logout()`, and trace and state are the very ones of a
rejection that carries no status.  No step of these handlers forces the
session to anonymous. -/
theorem fetch_unauthorized_no_session_call_counterexample :
    ((Analyses.fetchAnalyses sampleEnv Analyses.initialState
          (Except.error unauthorizedError)).trace
        = [Effect.get "http://localhost:8001/api/analyses" sampleEnv.authHeader,
           Effect.toastError "Erreur lors du chargement des analyses"] ∧
      Effect.logout ∉ (Analyses.fetchAnalyses sampleEnv Analyses.initialState
          (Except.error unauthorizedError)).trace ∧
      authCalls (Analyses.fetchAnalyses sampleEnv Analyses.initialState
          (Except.error unauthorizedError)).trace = [] ∧
      (Analyses.fetchAnalyses sampleEnv Analyses.initialState
          (Except.error unauthorizedError)).trace
        = (Analyses.fetchAnalyses sampleEnv Analyses.initialState
            (Except.error networkError)).trace ∧
      (Analyses.fetchAnalyses sampleEnv Analyses.initialState
          (Except.error unauthorizedError)).state
        = (Analyses.fetchAnalyses sampleEnv Analyses.initialState
            (Except.error networkError)).state) ∧
    ((Opportunities.fetchOpportunities sampleEnv Opportunities.initialState
          (Except.error unauthorizedError)).trace
        = [Effect.get "http://localhost:8001/api/opportunities" sampleEnv.authHeader,
           Effect.toastError "Erreur lors du chargement des opportunités"] ∧
      Effect.logout ∉ (Opportunities.fetchOpportunities sampleEnv
          Opportunities.initialState (Except.error unauthorizedError)).trace ∧
      authCalls (Opportunities.fetchOpportunities sampleEnv Opportunities.initialState
          (Except.error unauthorizedError)).trace = [] ∧
      (Opportunities.fetchOpportunities sampleEnv Opportunities.initialState
          (Except.error unauthorizedError)).trace
        = (Opportunities.fetchOpportunities sampleEnv Opportunities.initialState
            (Except.error networkError)).trace ∧
      (Opportunities.fetchOpportunities sampleEnv Opportunities.initialState
          (Except.error unauthorizedError)).state
        = (Opportunities.fetchOpportunities sampleEnv Opportunities.initialState
            (Except.error networkError)).state) ∧
    ((Dashboard.fetchStats sampleEnv Dashboard.initialState
          (Except.error unauthorizedError)).trace
        = [Effect.get "http://localhost:8001/api/dashboard/stats" sampleEnv.authHeader,
           Effect.toastError "Erreur lors du chargement des statistiques"] ∧
      Effect.logout ∉ (Dashboard.fetchStats sampleEnv Dashboard.initialState
          (Except.error unauthorizedError)).trace ∧
      authCalls (Dashboard.fetchStats sampleEnv Dashboard.initialState
          (Except.error unauthorizedError)).trace = [] ∧
      (Dashboard.fetchStats sampleEnv Dashboard.initialState
          (Except.error unauthorizedError)).trace
        = (Dashboard.fetchStats sampleEnv Dashboard.initialState
            (Except.error networkError)).trace ∧
      (Dashboard.fetchStats sampleEnv Dashboard.initialState
          (Except.error unauthorizedError)).state
        = (Dashboard.fetchStats sampleEnv Dashboard.initialState
            (Except.error networkError)).state) := by
  decide

/-- C11, amended: when the list request of the analyses, opportunities or
dashboard view fails, with an authorization-failure status or any other
error, the handler of the view does not read the status and makes no call
into the auth context: whatever the error, it performs the GET, emits one
error notice and sets loading to false, leaving the rest of the state as it
was. -/
theorem failed_list_fetch_makes_no_session_call (env : Env) (err other : RequestError)
    (a : AnalysesState) (o : OpportunitiesState) (d : DashboardState) :
    ((Analyses.fetchAnalyses env a (Except.error err)).trace
        = [Effect.get (API env ++ "/analyses") env.authHeader,
           Effect.toastError "Erreur lors du chargement des analyses"] ∧
      authCalls (Analyses.fetchAnalyses env a (Except.error err)).trace = [] ∧
      (errorNotices (Analyses.fetchAnalyses env a (Except.error err)).trace).length = 1 ∧
      (Analyses.fetchAnalyses env a (Except.error err)).state = { a with loading := false } ∧
      (Analyses.fetchAnalyses env a (Except.error err)).trace
        = (Analyses.fetchAnalyses env a (Except.error other)).trace ∧
      (Analyses.fetchAnalyses env a (Except.error err)).state
        = (Analyses.fetchAnalyses env a (Except.error other)).state) ∧
    ((Opportunities.fetchOpportunities env o (Except.error err)).trace
        = [Effect.get (API env ++ "/opportunities") env.authHeader,
           Effect.toastError "Erreur lors du chargement des opportunités"] ∧
      authCalls (Opportunities.fetchOpportunities env o (Except.error err)).trace = [] ∧
      (errorNotices (Opportunities.fetchOpportunities env o (Except.error err)).trace).length
        = 1 ∧
      (Opportunities.fetchOpportunities env o (Except.error err)).state
        = { o with loading := false } ∧
      (Opportunities.fetchOpportunities env o (Except.error err)).trace
        = (Opportunities.fetchOpportunities env o (Except.error other)).trace ∧
      (Opportunities.fetchOpportunities env o (Except.error err)).state
        = (Opportunities.fetchOpportunities env o (Except.error other)).state) ∧
    ((Dashboard.fetchStats env d (Except.error err)).trace
        = [Effect.get (API env ++ "/dashboard/stats") env.authHeader,
           Effect.toastError "Erreur lors du chargement des statistiques"] ∧
      authCalls (Dashboard.fetchStats env d (Except.error err)).trace = [] ∧
      (errorNotices (Dashboard.fetchStats env d (Except.error err)).trace).length = 1 ∧
      (Dashboard.fetchStats env d (Except.error err)).state = { d with loading := false } ∧
      (Dashboard.fetchStats env d (Except.error err)).trace
        = (Dashboard.fetchStats env d (Except.error other)).trace ∧
      (Dashboard.fetchStats env d (Except.error err)).state
        = (Dashboard.fetchStats env d (Except.error other)).state) := by
  simp [Analyses.fetchAnalyses, Analyses.fetchAnalyses_start, Analyses.fetchAnalyses_settle,
    Opportunities.fetchOpportunities, Opportunities.fetchOpportunities_start,
    Opportunities.fetchOpportunities_settle, Dashboard.fetchStats, Dashboard.fetchStats_start,
    Dashboard.fetchStats_settle, authCalls, errorNotices, Effect.isAuthCall,
    Effect.isErrorNotice]

/-! ## Theorems: concurrent removals and confirmation -/

/-- C12, at the failing input: on the rendered list of the two analyses
"a1" and "a2", both removals are confirmed before either request settles
(asking changes no state, so both handlers hold the same rendered list);
when both DELETEs succeed, the completion for "a1" followed by the one for
"a2" leaves the list holding "a1" again, and in the other order the list
holds "a2" again. -/
theorem concurrent_deletes_restore_item :
    (Analyses.handleDelete_ask sampleEnv
        (analysesView [sampleAnalysis "a1" "Un", sampleAnalysis "a2" "Deux"]) "a1" true).1.state
      = analysesView [sampleAnalysis "a1" "Un", sampleAnalysis "a2" "Deux"] ∧
    (Analyses.handleDelete_settle
        (analysesView [sampleAnalysis "a1" "Un", sampleAnalysis "a2" "Deux"]) "a2"
        (Except.ok ())
        (Analyses.handleDelete_settle
          (analysesView [sampleAnalysis "a1" "Un", sampleAnalysis "a2" "Deux"]) "a1"
          (Except.ok ())
          (analysesView [sampleAnalysis "a1" "Un", sampleAnalysis "a2" "Deux"])).state
      ).state.analyses = [sampleAnalysis "a1" "Un"] ∧
    (Analyses.handleDelete_settle
        (analysesView [sampleAnalysis "a1" "Un", sampleAnalysis "a2" "Deux"]) "a1"
        (Except.ok ())
        (Analyses.handleDelete_settle
          (analysesView [sampleAnalysis "a1" "Un", sampleAnalysis "a2" "Deux"]) "a2"
          (Except.ok ())
          (analysesView [sampleAnalysis "a1" "Un", sampleAnalysis "a2" "Deux"])).state
      ).state.analyses = [sampleAnalysis "a2" "Deux"] := by
  decide

/-- C13: when the confirmation is declined, `handleDelete` issues no
request, leaves the state (the list among it) unchanged and emits no notice,
for every list, id and backend answer; and whenever the handler issues a
request, the user had confirmed and the prompt is the first effect. -/
theorem delete_declined_does_nothing (env : Env) (s : AnalysesState) (id : String)
    (confirmed : Bool) (response : Except RequestError Unit) :
    (requests (Analyses.handleDelete env s id false response).trace = [] ∧
      (Analyses.handleDelete env s id false response).state = s ∧
      (Analyses.handleDelete env s id false response).state.analyses = s.analyses ∧
      notices (Analyses.handleDelete env s id false response).trace = []) ∧
    (requests (Analyses.handleDelete env s id confirmed response).trace ≠ [] →
      confirmed = true) ∧
    (Analyses.handleDelete env s id confirmed response).trace.head?
      = some (Effect.confirm "Supprimer cette analyse ?") := by
  refine ⟨?_, ?_, ?_⟩
  · simp [Analyses.handleDelete, Analyses.handleDelete_ask, requests, notices,
      Effect.isRequest, Effect.isNotice, Effect.isErrorNotice, Effect.isSuccessNotice]
  · cases confirmed
    · simp [Analyses.handleDelete, Analyses.handleDelete_ask, requests, Effect.isRequest]
    · simp
  · cases confirmed <;> simp [Analyses.handleDelete, Analyses.handleDelete_ask]

/-- C13 on a confirmed removal: a request is in the trace and the answer to
the prompt was yes. -/
theorem delete_declined_does_nothing_witness :
    requests (Analyses.handleDelete sampleEnv (analysesView [sampleAnalysis "a1" "Un"]) "a1"
      true (Except.ok ())).trace ≠ [] ∧ true = true :=
  ⟨by decide,
   (delete_declined_does_nothing sampleEnv (analysesView [sampleAnalysis "a1" "Un"]) "a1"
      true (Except.ok ())).2.1 (by decide)⟩

/-! ## Theorems: mount fetches -/

/-- C14: for the mount fetch of the analyses, opportunities and reports
views: loading starts true and is still true once the request is issued; on
success the collection is the sequence the backend returned, in the same
order, and loading is false; on failure loading is false, the collection is
what it was, which at mount is the empty list, and one error notice is
emitted. -/
theorem mount_fetch_outcomes (env : Env) (err : RequestError)
    (analyses : List Analysis) (opportunities : List Opportunity) (reports : List Report)
    (reportsRes : Except RequestError (List Report))
    (analysesRes : Except RequestError (List Analysis)) :
    ((Analyses.initialState.loading = true ∧
        (Analyses.fetchAnalyses_start env Analyses.initialState).state.loading = true) ∧
      ((Analyses.fetchAnalyses env Analyses.initialState (Except.ok analyses)).state.analyses
          = analyses ∧
        (Analyses.fetchAnalyses env Analyses.initialState (Except.ok analyses)).state.loading
          = false) ∧
      ((Analyses.fetchAnalyses env Analyses.initialState (Except.error err)).state.loading
          = false ∧
        (Analyses.fetchAnalyses env Analyses.initialState (Except.error err)).state.analyses
          = [] ∧
        errorNotices (Analyses.fetchAnalyses env Analyses.initialState
            (Except.error err)).trace
          = [Effect.toastError "Erreur lors du chargement des analyses"])) ∧
    ((Opportunities.initialState.loading = true ∧
        (Opportunities.fetchOpportunities_start env Opportunities.initialState).state.loading
          = true) ∧
      ((Opportunities.fetchOpportunities env Opportunities.initialState
            (Except.ok opportunities)).state.opportunities = opportunities ∧
        (Opportunities.fetchOpportunities env Opportunities.initialState
            (Except.ok opportunities)).state.loading = false) ∧
      ((Opportunities.fetchOpportunities env Opportunities.initialState
            (Except.error err)).state.loading = false ∧
        (Opportunities.fetchOpportunities env Opportunities.initialState
            (Except.error err)).state.opportunities = [] ∧
        errorNotices (Opportunities.fetchOpportunities env Opportunities.initialState
            (Except.error err)).trace
          = [Effect.toastError "Erreur lors du chargement des opportunités"])) ∧
    ((Reports.initialState.loading = true ∧
        (Reports.fetchData_start env Reports.initialState).state.loading = true) ∧
      ((Reports.fetchData env Reports.initialState (Except.ok reports)
            (Except.ok analyses)).state.reports = reports ∧
        (Reports.fetchData env Reports.initialState (Except.ok reports)
            (Except.ok analyses)).state.analyses = analyses ∧
        (Reports.fetchData env Reports.initialState (Except.ok reports)
            (Except.ok analyses)).state.loading = false) ∧
      ((Reports.fetchData env Reports.initialState (Except.error err)
            analysesRes).state.loading = false ∧
        (Reports.fetchData env Reports.initialState (Except.error err)
            analysesRes).state.reports = [] ∧
        errorNotices (Reports.fetchData env Reports.initialState (Except.error err)
            analysesRes).trace = [Effect.toastError "Erreur lors du chargement"]) ∧
      ((Reports.fetchData env Reports.initialState reportsRes
            (Except.error err)).state.loading = false ∧
        (Reports.fetchData env Reports.initialState reportsRes
            (Except.error err)).state.reports = [] ∧
        errorNotices (Reports.fetchData env Reports.initialState reportsRes
            (Except.error err)).trace = [Effect.toastError "Erreur lors du chargement"])) := by
  refine ⟨?_, ?_, ?_, ?_, ?_, ?_⟩
  · simp [Analyses.fetchAnalyses, Analyses.fetchAnalyses_start, Analyses.fetchAnalyses_settle,
      Analyses.initialState, errorNotices, Effect.isErrorNotice]
  · simp [Opportunities.fetchOpportunities, Opportunities.fetchOpportunities_start,
      Opportunities.fetchOpportunities_settle, Opportunities.initialState, errorNotices,
      Effect.isErrorNotice]
  · simp [Reports.fetchData_start, Reports.initialState]
  · simp [Reports.fetchData, Reports.fetchData_start, Reports.fetchData_settle,
      Reports.promiseAll]
  · simp [Reports.fetchData, Reports.fetchData_start, Reports.fetchData_settle,
      Reports.promiseAll, Reports.initialState, errorNotices, Effect.isErrorNotice]
  · cases reportsRes <;>
      simp [Reports.fetchData, Reports.fetchData_start, Reports.fetchData_settle,
        Reports.promiseAll, Reports.initialState, errorNotices, Effect.isErrorNotice]

/-- C15: every failure path of a resource view operation ends inside its
handler: for every error, the body of the mount fetch, of create and of
remove in the analyses, opportunities, reports and dashboard views ends
normally (nothing is thrown out of it), and the trace holds exactly one
error notice. -/
theorem failures_caught_with_one_notice (env : Env) (err : RequestError)
    (a : AnalysesState) (r : ReportsState) (o : OpportunitiesState) (d : DashboardState)
    (id : String) (reportsRes : Except RequestError (List Report))
    (analysesRes : Except RequestError (List Analysis)) :
    (Analyses.fetchAnalyses_completion (Except.error err) = Completion.normal ∧
      (errorNotices (Analyses.fetchAnalyses env a (Except.error err)).trace).length = 1) ∧
    (Analyses.handleCreate_completion (Except.error err) = Completion.normal ∧
      (errorNotices (Analyses.handleCreate env a (Except.error err)).trace).length = 1) ∧
    (Analyses.handleDelete_completion (Except.error err) = Completion.normal ∧
      (errorNotices (Analyses.handleDelete env a id true (Except.error err)).trace).length
        = 1) ∧
    (Opportunities.fetchOpportunities_completion (Except.error err) = Completion.normal ∧
      (errorNotices (Opportunities.fetchOpportunities env o (Except.error err)).trace).length
        = 1) ∧
    (Reports.fetchData_completion (Except.error err) analysesRes = Completion.normal ∧
      Reports.fetchData_completion reportsRes (Except.error err) = Completion.normal ∧
      (errorNotices (Reports.fetchData env r (Except.error err) analysesRes).trace).length
        = 1 ∧
      (errorNotices (Reports.fetchData env r reportsRes (Except.error err)).trace).length
        = 1) ∧
    (Reports.handleCreate_completion (Except.error err) = Completion.normal ∧
      (errorNotices (Reports.handleCreate env r (Except.error err)).trace).length = 1) ∧
    (Dashboard.fetchStats_completion (Except.error err) = Completion.normal ∧
      (errorNotices (Dashboard.fetchStats env d (Except.error err)).trace).length = 1) := by
  refine ⟨?_, ?_, ?_, ?_, ?_, ?_, ?_⟩
  · simp [Analyses.fetchAnalyses_completion, tryCatchFinally, awaitCompletion,
      Analyses.fetchAnalyses, Analyses.fetchAnalyses_start, Analyses.fetchAnalyses_settle,
      errorNotices, Effect.isErrorNotice]
  · refine ⟨by simp [Analyses.handleCreate_completion, tryCatchFinally, awaitCompletion], ?_⟩
    simp only [Analyses.handleCreate, Analyses.handleCreate_submit,
      Analyses.handleCreate_settle]
    split_ifs <;> simp_all [errorNotices, Effect.isErrorNotice]
  · simp [Analyses.handleDelete_completion, tryCatchFinally, awaitCompletion,
      Analyses.handleDelete, Analyses.handleDelete_ask, Analyses.handleDelete_settle,
      errorNotices, Effect.isErrorNotice]
  · simp [Opportunities.fetchOpportunities_completion, tryCatchFinally, awaitCompletion,
      Opportunities.fetchOpportunities, Opportunities.fetchOpportunities_start,
      Opportunities.fetchOpportunities_settle, errorNotices, Effect.isErrorNotice]
  · refine ⟨?_, ?_, ?_, ?_⟩
    · simp [Reports.fetchData_completion, Reports.promiseAll, tryCatchFinally,
        awaitCompletion]
    · cases reportsRes <;>
        simp [Reports.fetchData_completion, Reports.promiseAll, tryCatchFinally,
          awaitCompletion]
    · simp [Reports.fetchData, Reports.fetchData_start, Reports.fetchData_settle,
        Reports.promiseAll, errorNotices, Effect.isErrorNotice]
    · cases reportsRes <;>
        simp [Reports.fetchData, Reports.fetchData_start, Reports.fetchData_settle,
          Reports.promiseAll, errorNotices, Effect.isErrorNotice]
  · refine ⟨by simp [Reports.handleCreate_completion, tryCatchFinally, awaitCompletion], ?_⟩
    simp only [Reports.handleCreate, Reports.handleCreate_submit,
      Reports.handleCreate_settle]
    split_ifs <;> simp_all [errorNotices, Effect.isErrorNotice]
  · simp [Dashboard.fetchStats_completion, tryCatchFinally, awaitCompletion,
      Dashboard.fetchStats, Dashboard.fetchStats_start, Dashboard.fetchStats_settle,
      errorNotices, Effect.isErrorNotice]

/-! ## Theorems: the registration and login pages -/

/-- The length of a string without code points above the basic plane is its
number of characters. -/
theorem jsLength_eq_length (s : String) (h : ∀ c ∈ s.data, c.toNat < 0x10000) :
    jsLength s = s.length := by
  obtain ⟨cs⟩ := s
  simp only [jsLength, String.length]
  induction cs with
  | nil => rfl
  | cons c rest ih =>
    have hc : c.toNat < 0x10000 := h c (List.mem_cons_self c rest)
    have hrest : ∀ x ∈ rest, x.toNat < 0x10000 := fun x hx => h x (List.mem_cons_of_mem c hx)
    simp only [List.map_cons, List.sum_cons, List.length_cons, hc, if_true]
    rw [ih hrest]
    omega

/-- C16: the registration submit handler calls `register` if and only if
full_name, company_name, email and password are all non-empty and the
password has length at least 6 (as `password.length` counts it, which is the
number of characters when none lies above the basic plane); in every other
case the trace holds no call into the auth context and no request, the state
is unchanged and exactly one error notice is emitted. -/
theorem register_called_iff_valid (s : RegisterState)
    (response : Except RequestError (String × UserProfile)) :
    ((∃ accepted, Effect.register s.formData accepted ∈ (Register.handleSubmit s response).trace)
      ↔ (s.formData.full_name ≠ "" ∧ s.formData.company_name ≠ "" ∧ s.formData.email ≠ "" ∧
          s.formData.password ≠ "" ∧ 6 ≤ jsLength s.formData.password)) ∧
    (¬ (s.formData.full_name ≠ "" ∧ s.formData.company_name ≠ "" ∧ s.formData.email ≠ "" ∧
          s.formData.password ≠ "" ∧ 6 ≤ jsLength s.formData.password) →
      authCalls (Register.handleSubmit s response).trace = [] ∧
      requests (Register.handleSubmit s response).trace = [] ∧
      (Register.handleSubmit s response).state = s ∧
      (errorNotices (Register.handleSubmit s response).trace).length = 1) ∧
    ((∀ c ∈ s.formData.password.data, c.toNat < 0x10000) →
      jsLength s.formData.password = s.formData.password.length) := by
  refine ⟨?_, ?_, jsLength_eq_length _⟩
  · by_cases h1 : s.formData.full_name = "" ∨ s.formData.company_name = "" ∨
        s.formData.email = "" ∨ s.formData.password = ""
    · have hn : ¬ (s.formData.full_name ≠ "" ∧ s.formData.company_name ≠ "" ∧
          s.formData.email ≠ "" ∧ s.formData.password ≠ "" ∧
          6 ≤ jsLength s.formData.password) := by
        rintro ⟨a, b, c, d, -⟩
        rcases h1 with h | h | h | h
        · exact a h
        · exact b h
        · exact c h
        · exact d h
      simp [Register.handleSubmit, h1, hn]
    · by_cases h2 : jsLength s.formData.password < 6
      · have hn : ¬ (6 ≤ jsLength s.formData.password) := by omega
        simp [Register.handleSubmit, h1, h2, hn]
      · have hp : 6 ≤ jsLength s.formData.password := by omega
        have h1b := h1
        simp only [not_or] at h1b
        obtain ⟨a, b, c, d⟩ := h1b
        cases response <;> simp [Register.handleSubmit, h1, h2, hp, a, b, c, d]
  · intro hn
    by_cases h1 : s.formData.full_name = "" ∨ s.formData.company_name = "" ∨
        s.formData.email = "" ∨ s.formData.password = ""
    · simp [Register.handleSubmit, h1, authCalls, requests, errorNotices, Effect.isAuthCall,
        Effect.isRequest, Effect.isErrorNotice]
    · have h1b := h1
      simp only [not_or] at h1b
      obtain ⟨a, b, c, d⟩ := h1b
      have h2 : jsLength s.formData.password < 6 := by
        by_contra hge
        exact hn ⟨a, b, c, d, by omega⟩
      simp [Register.handleSubmit, h1, h2, authCalls, requests, errorNotices,
        Effect.isAuthCall, Effect.isRequest, Effect.isErrorNotice]

/-- C16 on a form whose password has five characters: no call, one notice. -/
theorem register_called_iff_valid_witness :
    authCalls (Register.handleSubmit
      { formData := { full_name := "Ada", company_name := "Acme", email := "a@b.com",
                      password := "12345" }
        loading := false }
      (Except.ok ("t1", sampleUser))).trace = [] :=
  ((register_called_iff_valid
      { formData := { full_name := "Ada", company_name := "Acme", email := "a@b.com",
                      password := "12345" }
        loading := false }
      (Except.ok ("t1", sampleUser))).2.1 (by decide)).1

/-- C17, counterexample: a rejected login and a rejected register whose
error carries the detail "" show the generic message, not the detail. -/
theorem rejected_empty_detail_counterexample :
    emptyDetailError.detail = some "" ∧
    errorNotices (Login.handleSubmit loginPage (Except.error emptyDetailError)).trace
      = [Effect.toastError "Erreur de connexion"] ∧
    errorNotices (Login.handleSubmit loginPage (Except.error emptyDetailError)).trace
      ≠ [Effect.toastError ""] ∧
    errorNotices (Register.handleSubmit registerPage (Except.error emptyDetailError)).trace
      = [Effect.toastError "Erreur lors de l\x27inscription"] ∧
    errorNotices (Register.handleSubmit registerPage (Except.error emptyDetailError)).trace
      ≠ [Effect.toastError ""] := by
  decide

/-- C17, amended: when login or register is rejected, the one error notice
shown is the backend detail verbatim whenever the error carries a non-empty
one, and the generic message ("Erreur de connexion" for login, "Erreur lors
de l'inscription" for register) when the detail is absent or empty; no
navigation happens and the loading flag of the form is false afterwards. -/
theorem rejected_shows_detail_or_generic (s : LoginState) (r : RegisterState)
    (err : RequestError)
    (hs : s.email ≠ "" ∧ s.password ≠ "")
    (hr : r.formData.full_name ≠ "" ∧ r.formData.company_name ≠ "" ∧ r.formData.email ≠ "" ∧
      r.formData.password ≠ "" ∧ 6 ≤ jsLength r.formData.password) :
    ((∀ detail, err.detail = some detail → detail ≠ "" →
        errorNotices (Login.handleSubmit s (Except.error err)).trace
          = [Effect.toastError detail]) ∧
      (err.detail = none ∨ err.detail = some "" →
        errorNotices (Login.handleSubmit s (Except.error err)).trace
          = [Effect.toastError "Erreur de connexion"]) ∧
      navigations (Login.handleSubmit s (Except.error err)).trace = [] ∧
      (Login.handleSubmit s (Except.error err)).state.loading = false) ∧
    ((∀ detail, err.detail = some detail → detail ≠ "" →
        errorNotices (Register.handleSubmit r (Except.error err)).trace
          = [Effect.toastError detail]) ∧
      (err.detail = none ∨ err.detail = some "" →
        errorNotices (Register.handleSubmit r (Except.error err)).trace
          = [Effect.toastError "Erreur lors de l\x27inscription"]) ∧
      navigations (Register.handleSubmit r (Except.error err)).trace = [] ∧
      (Register.handleSubmit r (Except.error err)).state.loading = false) := by
  obtain ⟨h1, h2⟩ := hs
  obtain ⟨h3, h4, h5, h6, h7⟩ := hr
  have h8 : ¬ jsLength r.formData.password < 6 := by omega
  refine ⟨⟨?_, ?_, ?_, ?_⟩, ⟨?_, ?_, ?_, ?_⟩⟩
  · intro detail hd hne
    simp [Login.handleSubmit, h1, h2, errorNotices, Effect.isErrorNotice, detailOr, hd, hne]
  · rintro (hd | hd) <;>
      simp [Login.handleSubmit, h1, h2, errorNotices, Effect.isErrorNotice, detailOr, hd]
  · simp [Login.handleSubmit, h1, h2, navigations, Effect.isNavigation]
  · simp [Login.handleSubmit, h1, h2]
  · intro detail hd hne
    simp [Register.handleSubmit, h3, h4, h5, h6, h8, errorNotices, Effect.isErrorNotice,
      detailOr, hd, hne]
  · rintro (hd | hd) <;>
      simp [Register.handleSubmit, h3, h4, h5, h6, h8, errorNotices, Effect.isErrorNotice,
        detailOr, hd]
  · simp [Register.handleSubmit, h3, h4, h5, h6, h8, navigations, Effect.isNavigation]
  · simp [Register.handleSubmit, h3, h4, h5, h6, h8]

/-- C17 amended, on a login rejected with the detail "Invalid token". -/
theorem rejected_shows_detail_or_generic_witness :
    errorNotices (Login.handleSubmit loginPage (Except.error unauthorizedError)).trace
      = [Effect.toastError "Invalid token"] :=
  (rejected_shows_detail_or_generic loginPage registerPage unauthorizedError
    (by decide) (by decide)).1.1 "Invalid token" rfl (by decide)

/-- C18: for every non-empty email and password whose login request
succeeds, the submit handler emits one success notice and navigates to
"/dashboard"; the session that results is authenticated, the protected gate
then renders its children, and the "/dashboard" route shows the dashboard
view rather than a redirect. -/
theorem login_success_opens_dashboard (s : LoginState) (auth : AuthValue) (token : String)
    (user : UserProfile) (h1 : s.email ≠ "") (h2 : s.password ≠ "")
    (hl : auth.loading = false) :
    (Login.handleSubmit s (Except.ok (token, user))).trace
      = [Effect.preventDefault, Effect.login s.email s.password (some (token, user)),
         Effect.toastSuccess "Connexion réussie !", Effect.navigate "/dashboard"] ∧
    (successNotices (Login.handleSubmit s (Except.ok (token, user))).trace).length = 1 ∧
    errorNotices (Login.handleSubmit s (Except.ok (token, user))).trace = [] ∧
    navigations (Login.handleSubmit s (Except.ok (token, user))).trace
      = [Effect.navigate "/dashboard"] ∧
    sessionState (authAfter auth (Login.handleSubmit s (Except.ok (token, user))).trace)
      = SessionState.authenticated ∧
    ProtectedRoute (authAfter auth (Login.handleSubmit s (Except.ok (token, user))).trace)
      = Rendered.children ∧
    routeElement (authAfter auth (Login.handleSubmit s (Except.ok (token, user))).trace)
        "/dashboard"
      = some (Screen.page View.dashboard true) := by
  obtain ⟨u, t, l⟩ := auth
  simp only at hl
  subst hl
  simp [Login.handleSubmit, h1, h2, successNotices, errorNotices, navigations,
    Effect.isSuccessNotice, Effect.isErrorNotice, Effect.isNavigation, authAfter,
    Effect.applyAuth, login, sessionState, ProtectedRoute, routeElement, gated]

/-- C18 on the scenario of the specification: "a@b.com" with "secret1",
answered with the token "t1" and the user "u1", from an anonymous session. -/
theorem login_success_opens_dashboard_witness :
    routeElement (authAfter anonymousAuth
        (Login.handleSubmit loginPage (Except.ok ("t1", sampleUser))).trace) "/dashboard"
      = some (Screen.page View.dashboard true) :=
  (login_success_opens_dashboard loginPage anonymousAuth "t1" sampleUser
    (by decide) (by decide) rfl).2.2.2.2.2.2

/-! ## Theorems: idempotent fetch and derived values -/

/-- C19: in the analyses and opportunities views, for every prior state and
every successful response, the list after the fetch is exactly the sequence
of the response, whatever the prior list was; two successive fetches that
receive the same response therefore yield equal lists, with the same ids. -/
theorem mount_fetch_idempotent (env : Env) (a a2 : AnalysesState)
    (o o2 : OpportunitiesState) (analyses : List Analysis)
    (opportunities : List Opportunity) :
    ((Analyses.fetchAnalyses env a (Except.ok analyses)).state.analyses = analyses ∧
      (Analyses.fetchAnalyses env a (Except.ok analyses)).state.analyses
        = (Analyses.fetchAnalyses env a2 (Except.ok analyses)).state.analyses ∧
      (Analyses.fetchAnalyses env (Analyses.fetchAnalyses env a (Except.ok analyses)).state
          (Except.ok analyses)).state.analyses
        = (Analyses.fetchAnalyses env a (Except.ok analyses)).state.analyses ∧
      ((Analyses.fetchAnalyses env (Analyses.fetchAnalyses env a (Except.ok analyses)).state
          (Except.ok analyses)).state.analyses.map (fun x => x.id))
        = (Analyses.fetchAnalyses env a (Except.ok analyses)).state.analyses.map
            (fun x => x.id) ∧
      (Analyses.fetchAnalyses env (Analyses.fetchAnalyses env a (Except.ok analyses)).state
          (Except.ok analyses)).state
        = (Analyses.fetchAnalyses env a (Except.ok analyses)).state) ∧
    ((Opportunities.fetchOpportunities env o (Except.ok opportunities)).state.opportunities
        = opportunities ∧
      (Opportunities.fetchOpportunities env o (Except.ok opportunities)).state.opportunities
        = (Opportunities.fetchOpportunities env o2
            (Except.ok opportunities)).state.opportunities ∧
      (Opportunities.fetchOpportunities env
          (Opportunities.fetchOpportunities env o (Except.ok opportunities)).state
          (Except.ok opportunities)).state.opportunities
        = (Opportunities.fetchOpportunities env o
            (Except.ok opportunities)).state.opportunities ∧
      ((Opportunities.fetchOpportunities env
          (Opportunities.fetchOpportunities env o (Except.ok opportunities)).state
          (Except.ok opportunities)).state.opportunities.map (fun x => x.id))
        = (Opportunities.fetchOpportunities env o
            (Except.ok opportunities)).state.opportunities.map (fun x => x.id) ∧
      (Opportunities.fetchOpportunities env
          (Opportunities.fetchOpportunities env o (Except.ok opportunities)).state
          (Except.ok opportunities)).state
        = (Opportunities.fetchOpportunities env o (Except.ok opportunities)).state) := by
  simp [Analyses.fetchAnalyses, Analyses.fetchAnalyses_start, Analyses.fetchAnalyses_settle,
    Opportunities.fetchOpportunities, Opportunities.fetchOpportunities_start,
    Opportunities.fetchOpportunities_settle]

/-- C20: the derived values of the opportunities view are functions of the
list and the filter alone: the filtered list is the whole list when the
filter is "all" and otherwise exactly the items whose priority equals the
filter, in their original order; computing the filtered list and the counts
issues no request and leaves the state, the list among it, unchanged. -/
theorem opportunities_derivations_pure (s : OpportunitiesState)
    (opportunities : List Opportunity) (f : String) :
    Opportunities.filteredOpportunities opportunities "all" = opportunities ∧
    (f ≠ "all" →
      Opportunities.filteredOpportunities opportunities f
        = opportunities.filter (fun opp => decide (opp.priority = f)) ∧
      (∀ opp, opp ∈ Opportunities.filteredOpportunities opportunities f
        ↔ opp ∈ opportunities ∧ opp.priority = f)) ∧
    (Opportunities.filteredOpportunities opportunities f).Sublist opportunities ∧
    (Opportunities.derive s).2.1 = Opportunities.filteredOpportunities s.opportunities s.filter ∧
    (Opportunities.derive s).2.2 = Opportunities.stats s.opportunities ∧
    requests (Opportunities.derive s).1.trace = [] ∧
    (Opportunities.derive s).1.trace = [] ∧
    (Opportunities.derive s).1.state = s ∧
    (Opportunities.derive s).1.state.opportunities = s.opportunities := by
  refine ⟨?_, ?_, ?_, rfl, rfl, rfl, rfl, rfl, rfl⟩
  · simp [Opportunities.filteredOpportunities]
  · intro hf
    constructor
    · simp only [Opportunities.filteredOpportunities, hf, if_false]
      apply List.filter_congr
      intro opp _
      by_cases h : opp.priority = f <;> simp [h]
    · intro opp
      simp [Opportunities.filteredOpportunities, hf, List.mem_filter]
  · exact List.filter_sublist _

/-- C20 on a three-item list filtered by "high": the two high-priority
items remain, in their original order. -/
theorem opportunities_derivations_pure_witness :
    Opportunities.filteredOpportunities
        [sampleOpportunity "o1" "high", sampleOpportunity "o2" "low",
         sampleOpportunity "o3" "high"] "high"
      = [sampleOpportunity "o1" "high", sampleOpportunity "o3" "high"] :=
  ((opportunities_derivations_pure Opportunities.initialState
      [sampleOpportunity "o1" "high", sampleOpportunity "o2" "low",
       sampleOpportunity "o3" "high"] "high").2.1 (by decide)).1.trans (by decide)

/-! ## Theorems: export, route table, creation form -/

/-- C21: exporting a report mutates nothing: for every state of the reports
view and every report of its list, the download action leaves the state, the
reports list and the report in it unchanged, calls no request, and the file
offered has the content of the report as its content and the title of the
report followed by ".txt" as its name. -/
theorem download_leaves_reports_unchanged (s : ReportsState) (report : Report)
    (h : report ∈ s.reports) :
    (Reports.downloadOnClick s report).state = s ∧
    (Reports.downloadOnClick s report).state.reports = s.reports ∧
    report ∈ (Reports.downloadOnClick s report).state.reports ∧
    requests (Reports.downloadOnClick s report).trace = [] ∧
    (Reports.downloadOnClick s report).trace
      = [Effect.download (report.title ++ ".txt") report.content "text/plain",
         Effect.toastSuccess "Rapport téléchargé"] ∧
    (∀ name content mimeType,
      Effect.download name content mimeType ∈ (Reports.downloadOnClick s report).trace →
      name = report.title ++ ".txt" ∧ content = report.content) := by
  refine ⟨rfl, rfl, h, ?_, rfl, ?_⟩
  · simp [Reports.downloadOnClick, requests, Effect.isRequest]
  · intro name content mimeType hmem
    simp [Reports.downloadOnClick] at hmem
    exact ⟨hmem.1, hmem.2.1⟩

/-- C21 on a one-report list: the file is named "Rapport.txt". -/
theorem download_leaves_reports_unchanged_witness :
    (Reports.downloadOnClick (reportsView [sampleReport "r1"]) (sampleReport "r1")).trace
      = [Effect.download "Rapport.txt" "texte" "text/plain",
         Effect.toastSuccess "Rapport téléchargé"] :=
  (download_leaves_reports_unchanged (reportsView [sampleReport "r1"]) (sampleReport "r1")
    (by decide)).2.2.2.2.1

/-- C22: in the route table the elements of "/dashboard", "/analyses",
"/opportunities" and "/reports" are children of `ProtectedRoute` and those
of "/login" and "/register" children of `PublicRoute`; whenever a route
shows one of the four protected views, the path is that of the view, loading
is false and a user is present, and whenever it shows the login or the
registration page, `PublicRoute` renders its children. -/
theorem protected_views_only_behind_gate (auth : AuthValue) (path : String) (view : View)
    (inLayout : Bool) :
    (routeElement auth "/dashboard"
        = some (gated (ProtectedRoute auth) (Screen.page View.dashboard true)) ∧
      routeElement auth "/analyses"
        = some (gated (ProtectedRoute auth) (Screen.page View.analyses true)) ∧
      routeElement auth "/opportunities"
        = some (gated (ProtectedRoute auth) (Screen.page View.opportunities true)) ∧
      routeElement auth "/reports"
        = some (gated (ProtectedRoute auth) (Screen.page View.reports true)) ∧
      routeElement auth "/login"
        = some (gated (PublicRoute auth) (Screen.page View.login false)) ∧
      routeElement auth "/register"
        = some (gated (PublicRoute auth) (Screen.page View.register false))) ∧
    (routeElement auth path = some (Screen.page view inLayout) →
      (view = View.dashboard ∨ view = View.analyses ∨ view = View.opportunities ∨
        view = View.reports) →
      (auth.loading = false ∧ auth.user.isSome = true) ∧
      ProtectedRoute auth = Rendered.children ∧
      ((view = View.dashboard ∧ path = "/dashboard") ∨
        (view = View.analyses ∧ path = "/analyses") ∨
        (view = View.opportunities ∧ path = "/opportunities") ∨
        (view = View.reports ∧ path = "/reports"))) ∧
    (routeElement auth path = some (Screen.page view inLayout) →
      (view = View.login ∨ view = View.register) →
      PublicRoute auth = Rendered.children ∧
      ((view = View.login ∧ path = "/login") ∨
        (view = View.register ∧ path = "/register"))) := by
  obtain ⟨user, token, loading⟩ := auth
  refine ⟨by simp [routeElement], ?_, ?_⟩
  · intro h hv
    simp only [routeElement] at h
    split_ifs at h <;>
      cases loading <;> cases user <;> cases view <;>
      simp_all [ProtectedRoute, PublicRoute, gated]
  · intro h hv
    simp only [routeElement] at h
    split_ifs at h <;>
      cases loading <;> cases user <;> cases view <;>
      simp_all [ProtectedRoute, PublicRoute, gated]

/-- C22 at an authenticated session on "/reports". -/
theorem protected_views_only_behind_gate_witness :
    ProtectedRoute authenticatedAuth = Rendered.children :=
  ((protected_views_only_behind_gate authenticatedAuth "/reports" View.reports true).2.1
    (by decide) (by decide)).2.1

/-- C23: in the analyses and reports views, when validation passes the
`creating` flag is true once `handleCreate` has issued its POST and is
waiting for it, and false once the handler has finished, whether the POST
succeeded or failed; when validation fails the handler issues nothing and
leaves the flag as it was, so a flag that was false is never set. -/
theorem creating_true_during_request (env : Env) (s : AnalysesState) (t : ReportsState)
    (ra : Except RequestError Analysis) (rr : Except RequestError Report) :
    ((s.formData.title ≠ "" ∧ s.formData.industry ≠ "" ∧ s.formData.target_market ≠ "" →
        (Analyses.handleCreate_submit env s).2 = true ∧
        (Analyses.handleCreate_submit env s).1.state.creating = true ∧
        requests (Analyses.handleCreate_submit env s).1.trace
          = [Effect.post (API env ++ "/analyses")
              (Payload.analysis (Analyses.createPayload s.formData)) env.authHeader] ∧
        (Analyses.handleCreate env s ra).state.creating = false) ∧
      (s.formData.title = "" ∨ s.formData.industry = "" ∨ s.formData.target_market = "" →
        (Analyses.handleCreate_submit env s).2 = false ∧
        (Analyses.handleCreate_submit env s).1.state.creating = s.creating ∧
        (Analyses.handleCreate env s ra).state.creating = s.creating)) ∧
    ((t.formData.analysis_id ≠ "" ∧ t.formData.report_type ≠ "" →
        (Reports.handleCreate_submit env t).2 = true ∧
        (Reports.handleCreate_submit env t).1.state.creating = true ∧
        requests (Reports.handleCreate_submit env t).1.trace
          = [Effect.post (API env ++ "/reports") (Payload.report t.formData)
              env.authHeader] ∧
        (Reports.handleCreate env t rr).state.creating = false) ∧
      (t.formData.analysis_id = "" ∨ t.formData.report_type = "" →
        (Reports.handleCreate_submit env t).2 = false ∧
        (Reports.handleCreate_submit env t).1.state.creating = t.creating ∧
        (Reports.handleCreate env t rr).state.creating = t.creating)) := by
  refine ⟨⟨?_, ?_⟩, ⟨?_, ?_⟩⟩
  · rintro ⟨h1, h2, h3⟩
    cases ra <;>
      simp [Analyses.handleCreate, Analyses.handleCreate_submit, Analyses.handleCreate_settle,
        h1, h2, h3, requests, Effect.isRequest]
  · intro h
    simp [Analyses.handleCreate, Analyses.handleCreate_submit, h]
  · rintro ⟨h1, h2⟩
    cases rr <;>
      simp [Reports.handleCreate, Reports.handleCreate_submit, Reports.handleCreate_settle,
        h1, h2, requests, Effect.isRequest]
  · intro h
    simp [Reports.handleCreate, Reports.handleCreate_submit, h]

/-- C23 on a filled-in analyses form: the flag is true while the POST is
pending. -/
theorem creating_true_during_request_witness :
    (Analyses.handleCreate_submit sampleEnv (analysesView [])).1.state.creating = true :=
  ((creating_true_during_request sampleEnv (analysesView []) (reportsView [])
    (Except.ok (sampleAnalysis "a1" "Un")) (Except.ok (sampleReport "r1"))).1.1
      (by decide)).2.1

/-- C24: in the analyses and reports views a successful create closes the
creation form, resets every form field to the empty string and emits one
success notice; a create that fails, by validation or by a rejected POST,
leaves `dialogOpen` and the form exactly as they were. -/
theorem create_form_reset_or_kept (env : Env) (s : AnalysesState) (t : ReportsState)
    (a : Analysis) (q : Report) (err : RequestError)
    (ra : Except RequestError Analysis) (rr : Except RequestError Report) :
    ((s.formData.title ≠ "" ∧ s.formData.industry ≠ "" ∧ s.formData.target_market ≠ "" →
        (Analyses.handleCreate env s (Except.ok a)).state.dialogOpen = false ∧
        (Analyses.handleCreate env s (Except.ok a)).state.formData
          = { title := "", industry := "", target_market := "", competitors := "",
              description := "" } ∧
        successNotices (Analyses.handleCreate env s (Except.ok a)).trace
          = [Effect.toastSuccess "Analyse créée avec succès !"]) ∧
      ((Analyses.handleCreate env s (Except.error err)).state.dialogOpen = s.dialogOpen ∧
        (Analyses.handleCreate env s (Except.error err)).state.formData = s.formData) ∧
      (s.formData.title = "" ∨ s.formData.industry = "" ∨ s.formData.target_market = "" →
        (Analyses.handleCreate env s ra).state.dialogOpen = s.dialogOpen ∧
        (Analyses.handleCreate env s ra).state.formData = s.formData)) ∧
    ((t.formData.analysis_id ≠ "" ∧ t.formData.report_type ≠ "" →
        (Reports.handleCreate env t (Except.ok q)).state.dialogOpen = false ∧
        (Reports.handleCreate env t (Except.ok q)).state.formData
          = { analysis_id := "", report_type := "" } ∧
        successNotices (Reports.handleCreate env t (Except.ok q)).trace
          = [Effect.toastSuccess "Rapport généré avec succès !"]) ∧
      ((Reports.handleCreate env t (Except.error err)).state.dialogOpen = t.dialogOpen ∧
        (Reports.handleCreate env t (Except.error err)).state.formData = t.formData) ∧
      (t.formData.analysis_id = "" ∨ t.formData.report_type = "" →
        (Reports.handleCreate env t rr).state.dialogOpen = t.dialogOpen ∧
        (Reports.handleCreate env t rr).state.formData = t.formData)) := by
  refine ⟨⟨?_, ?_, ?_⟩, ⟨?_, ?_, ?_⟩⟩
  · rintro ⟨h1, h2, h3⟩
    simp [Analyses.handleCreate, Analyses.handleCreate_submit, Analyses.handleCreate_settle,
      Analyses.emptyForm, h1, h2, h3, successNotices, Effect.isSuccessNotice]
  · simp only [Analyses.handleCreate, Analyses.handleCreate_submit,
      Analyses.handleCreate_settle]
    split_ifs <;> simp_all
  · intro h
    simp [Analyses.handleCreate, Analyses.handleCreate_submit, h]
  · rintro ⟨h1, h2⟩
    simp [Reports.handleCreate, Reports.handleCreate_submit, Reports.handleCreate_settle,
      Reports.emptyForm, h1, h2, successNotices, Effect.isSuccessNotice]
  · simp only [Reports.handleCreate, Reports.handleCreate_submit,
      Reports.handleCreate_settle]
    split_ifs <;> simp_all
  · intro h
    simp [Reports.handleCreate, Reports.handleCreate_submit, h]

/-- C24 on a filled-in analyses form and a successful POST: the dialog is
closed. -/
theorem create_form_reset_or_kept_witness :
    (Analyses.handleCreate sampleEnv (analysesView [])
      (Except.ok (sampleAnalysis "a1" "Un"))).state.dialogOpen = false :=
  ((create_form_reset_or_kept sampleEnv (analysesView []) (reportsView [])
    (sampleAnalysis "a1" "Un") (sampleReport "r1") networkError
    (Except.ok (sampleAnalysis "a1" "Un")) (Except.ok (sampleReport "r1"))).1.1
      (by decide)).1

/-! ## Theorems: the form of the reports view -/

/-- Every event of the reports view keeps the `analysis_id` of the form
empty or among the ids of the loaded analyses. -/
theorem step_keeps_formAnalysisKnown (env : Env) (s : ReportsState) (e : ReportsEvent)
    (h : Reports.FormAnalysisKnown s) : Reports.FormAnalysisKnown (Reports.step env s e) := by
  cases e with
  | selectAnalysis index =>
    simp only [Reports.step]
    split
    · next analysis hget =>
      exact Or.inr ⟨analysis, List.getElem?_mem hget, rfl⟩
    · exact h
  | selectReportType index =>
    simp only [Reports.step]
    split
    · exact h
    · exact h
  | setDialogOpen isOpen => exact h
  | setViewOpen isOpen => exact h
  | openReport index =>
    simp only [Reports.step]
    split
    · exact h
    · exact h
  | download index =>
    simp only [Reports.step]
    split
    · exact h
    · exact h
  | createSubmit =>
    simp only [Reports.step, Reports.handleCreate_submit]
    split_ifs
    · exact h
    · exact h
  | createSettle rendered response =>
    cases response with
    | ok data => exact Or.inl rfl
    | error err => exact h

/-- The invariant of the form holds after the mount fetch and any events. -/
theorem run_formAnalysisKnown (env : Env) (reportsRes : Except RequestError (List Report))
    (analysesRes : Except RequestError (List Analysis)) (events : List ReportsEvent) :
    Reports.FormAnalysisKnown (Reports.run env reportsRes analysesRes events) := by
  have h0 : Reports.FormAnalysisKnown
      (Reports.fetchData env Reports.initialState reportsRes analysesRes).state := by
    left
    cases reportsRes <;> cases analysesRes <;> rfl
  unfold Reports.run
  generalize (Reports.fetchData env Reports.initialState reportsRes analysesRes).state = s0
    at h0
  induction events generalizing s0 with
  | nil => exact h0
  | cons e rest ih => exact ih _ (step_keeps_formAnalysisKnown env s0 e h0)

/-- C25: before its mount fetch settles and in every state reached after it
by selecting rendered items, opening and closing dialogs, submitting the
form and settling pending POSTs, the `analysis_id` of the form of the
reports view is empty or the id of an analysis of the loaded list; hence
every POST that `handleCreate` issues from such a state goes to the reports
endpoint with the form as body, carries the id of an analysis of that list
and a non-empty report_type. -/
theorem reports_form_analysis_known (env : Env)
    (reportsRes : Except RequestError (List Report))
    (analysesRes : Except RequestError (List Analysis)) (events : List ReportsEvent) :
    Reports.FormAnalysisKnown Reports.initialState ∧
    Reports.FormAnalysisKnown (Reports.run env reportsRes analysesRes events) ∧
    (∀ url body config,
      Effect.post url body config
        ∈ (Reports.handleCreate_submit env
            (Reports.run env reportsRes analysesRes events)).1.trace →
      url = API env ++ "/reports" ∧
      body = Payload.report (Reports.run env reportsRes analysesRes events).formData ∧
      (∃ a ∈ (Reports.run env reportsRes analysesRes events).analyses,
        a.id = (Reports.run env reportsRes analysesRes events).formData.analysis_id) ∧
      (Reports.run env reportsRes analysesRes events).formData.report_type ≠ "") := by
  refine ⟨Or.inl rfl, run_formAnalysisKnown env reportsRes analysesRes events, ?_⟩
  intro url body config hmem
  have hinv := run_formAnalysisKnown env reportsRes analysesRes events
  generalize Reports.run env reportsRes analysesRes events = s at hmem hinv ⊢
  simp only [Reports.handleCreate_submit] at hmem
  split_ifs at hmem with hv
  · simp at hmem
  · simp only [not_or] at hv
    simp at hmem
    refine ⟨hmem.1, hmem.2.1, ?_, hv.2⟩
    rcases hinv with h | h
    · exact absurd h hv.1
    · exact h

/-- C25 on a run: two analyses are loaded, the second is selected, a type is
selected and the form is submitted; the POST carries the id "a2". -/
theorem reports_form_analysis_known_witness :
    ∃ a ∈ (Reports.run sampleEnv (Except.ok [])
          (Except.ok [sampleAnalysis "a1" "Un", sampleAnalysis "a2" "Deux"])
          [ReportsEvent.setDialogOpen true, ReportsEvent.selectAnalysis 1,
           ReportsEvent.selectReportType 0]).analyses,
      a.id = (Reports.run sampleEnv (Except.ok [])
          (Except.ok [sampleAnalysis "a1" "Un", sampleAnalysis "a2" "Deux"])
          [ReportsEvent.setDialogOpen true, ReportsEvent.selectAnalysis 1,
           ReportsEvent.selectReportType 0]).formData.analysis_id :=
  ((reports_form_analysis_known sampleEnv (Except.ok [])
      (Except.ok [sampleAnalysis "a1" "Un", sampleAnalysis "a2" "Deux"])
      [ReportsEvent.setDialogOpen true, ReportsEvent.selectAnalysis 1,
       ReportsEvent.selectReportType 0]).2.2
    (API sampleEnv ++ "/reports")
    (Payload.report { analysis_id := "a2", report_type := "market_overview" })
    sampleEnv.authHeader (by decide)).2.2.1

/-! ## Theorems: counts, all-or-nothing fetch, removal, gates -/

/-- The three priority filters partition a list whose priorities are among
low, medium and high. -/
theorem priority_counts_sum (l : List Opportunity)
    (h : ∀ o ∈ l, o.priority = "low" ∨ o.priority = "medium" ∨ o.priority = "high") :
    l.length = (l.filter (fun o => o.priority == "high")).length
      + (l.filter (fun o => o.priority == "medium")).length
      + (l.filter (fun o => o.priority == "low")).length := by
  induction l with
  | nil => rfl
  | cons o rest ih =>
    have hrest := ih (fun x hx => h x (List.mem_cons_of_mem o hx))
    rcases h o (List.mem_cons_self o rest) with hp | hp | hp <;>
      simp [List.filter_cons, hp] <;> omega

/-- C26: in the opportunities view, for every list in which the priority of
each item is one of low, medium and high, total = high + medium + low, and
for each of the three priorities the list filtered by it has as many items
as its count says. -/
theorem opportunity_counts_add_up (l : List Opportunity)
    (h : ∀ o ∈ l, o.priority = "low" ∨ o.priority = "medium" ∨ o.priority = "high") :
    (Opportunities.stats l).total
      = (Opportunities.stats l).high + (Opportunities.stats l).medium
        + (Opportunities.stats l).low ∧
    (Opportunities.filteredOpportunities l "high").length = (Opportunities.stats l).high ∧
    (Opportunities.filteredOpportunities l "medium").length = (Opportunities.stats l).medium ∧
    (Opportunities.filteredOpportunities l "low").length = (Opportunities.stats l).low := by
  refine ⟨?_, ?_, ?_, ?_⟩
  · simpa [Opportunities.stats] using priority_counts_sum l h
  · simp [Opportunities.filteredOpportunities, Opportunities.stats]
  · simp [Opportunities.filteredOpportunities, Opportunities.stats]
  · simp [Opportunities.filteredOpportunities, Opportunities.stats]

/-- C26 on a list with two high and one low item. -/
theorem opportunity_counts_add_up_witness :
    (Opportunities.stats
      [sampleOpportunity "o1" "high", sampleOpportunity "o2" "low",
       sampleOpportunity "o3" "high"]).total
      = (Opportunities.stats
          [sampleOpportunity "o1" "high", sampleOpportunity "o2" "low",
           sampleOpportunity "o3" "high"]).high
        + (Opportunities.stats
          [sampleOpportunity "o1" "high", sampleOpportunity "o2" "low",
           sampleOpportunity "o3" "high"]).medium
        + (Opportunities.stats
          [sampleOpportunity "o1" "high", sampleOpportunity "o2" "low",
           sampleOpportunity "o3" "high"]).low :=
  (opportunity_counts_add_up
    [sampleOpportunity "o1" "high", sampleOpportunity "o2" "low",
     sampleOpportunity "o3" "high"] (by decide)).1

/-- C27: the mount fetch of the reports view is all-or-nothing: when either
of its two requests fails, the reports list and the analyses list keep
their prior value, exactly one error notice is emitted and loading becomes
false; when both succeed both lists are replaced by the responses, no error
notice is emitted and loading becomes false. -/
theorem reports_fetch_all_or_nothing (env : Env) (s : ReportsState) (err : RequestError)
    (reportsRes : Except RequestError (List Report))
    (analysesRes : Except RequestError (List Analysis))
    (reports : List Report) (analyses : List Analysis) :
    ((Reports.fetchData env s (Except.error err) analysesRes).state.reports = s.reports ∧
      (Reports.fetchData env s (Except.error err) analysesRes).state.analyses = s.analyses ∧
      (errorNotices (Reports.fetchData env s (Except.error err) analysesRes).trace).length
        = 1 ∧
      (Reports.fetchData env s (Except.error err) analysesRes).state.loading = false) ∧
    ((Reports.fetchData env s reportsRes (Except.error err)).state.reports = s.reports ∧
      (Reports.fetchData env s reportsRes (Except.error err)).state.analyses = s.analyses ∧
      (errorNotices (Reports.fetchData env s reportsRes (Except.error err)).trace).length
        = 1 ∧
      (Reports.fetchData env s reportsRes (Except.error err)).state.loading = false) ∧
    ((Reports.fetchData env s (Except.ok reports) (Except.ok analyses)).state.reports
        = reports ∧
      (Reports.fetchData env s (Except.ok reports) (Except.ok analyses)).state.analyses
        = analyses ∧
      errorNotices (Reports.fetchData env s (Except.ok reports) (Except.ok analyses)).trace
        = [] ∧
      (Reports.fetchData env s (Except.ok reports) (Except.ok analyses)).state.loading
        = false) ∧
    requests (Reports.fetchData env s reportsRes analysesRes).trace
      = [Effect.get (API env ++ "/reports") env.authHeader,
         Effect.get (API env ++ "/analyses") env.authHeader] := by
  refine ⟨?_, ?_, ?_, ?_⟩
  · simp [Reports.fetchData, Reports.fetchData_start, Reports.fetchData_settle,
      Reports.promiseAll, errorNotices, Effect.isErrorNotice]
  · cases reportsRes <;>
      simp [Reports.fetchData, Reports.fetchData_start, Reports.fetchData_settle,
        Reports.promiseAll, errorNotices, Effect.isErrorNotice]
  · simp [Reports.fetchData, Reports.fetchData_start, Reports.fetchData_settle,
      Reports.promiseAll, errorNotices, Effect.isErrorNotice]
  · cases reportsRes <;> cases analysesRes <;>
      simp [Reports.fetchData, Reports.fetchData_start, Reports.fetchData_settle,
        Reports.promiseAll, requests, Effect.isRequest]

/-- C29: a confirmed and successful remove of `id` in the analyses view
changes nothing but the list, which becomes the prior list restricted to the
items whose id differs from `id`, in their original order and with their
content unchanged; when no item has that id the state is left as it was. -/
theorem remove_success_restricts_list (env : Env) (s : AnalysesState) (id : String) :
    (Analyses.handleDelete env s id true (Except.ok ())).state.analyses
      = s.analyses.filter (fun a => a.id != id) ∧
    (Analyses.handleDelete env s id true (Except.ok ())).state.analyses.Sublist s.analyses ∧
    (∀ a, a ∈ (Analyses.handleDelete env s id true (Except.ok ())).state.analyses
      ↔ a ∈ s.analyses ∧ a.id ≠ id) ∧
    (Analyses.handleDelete env s id true (Except.ok ())).state
      = { s with analyses := s.analyses.filter (fun a => a.id != id) } ∧
    ((∀ a ∈ s.analyses, a.id ≠ id) →
      (Analyses.handleDelete env s id true (Except.ok ())).state.analyses = s.analyses ∧
      (Analyses.handleDelete env s id true (Except.ok ())).state = s) := by
  have hlist := handleDelete_success_analyses env s id
  have hstate : (Analyses.handleDelete env s id true (Except.ok ())).state
      = { s with analyses := s.analyses.filter (fun a => a.id != id) } := by
    simp [Analyses.handleDelete, Analyses.handleDelete_ask, Analyses.handleDelete_settle]
  refine ⟨hlist, ?_, ?_, hstate, ?_⟩
  · rw [hlist]
    exact List.filter_sublist _
  · intro a
    rw [hlist]
    simp [List.mem_filter]
  · intro hno
    have hsame : s.analyses.filter (fun a => a.id != id) = s.analyses := by
      rw [List.filter_eq_self]
      intro a ha
      simpa using hno a ha
    refine ⟨by rw [hlist, hsame], ?_⟩
    rw [hstate, hsame]

/-- C29 on a list without the id: nothing changes. -/
theorem remove_success_restricts_list_witness :
    (Analyses.handleDelete sampleEnv (analysesView [sampleAnalysis "a1" "Un"]) "a9" true
      (Except.ok ())).state = analysesView [sampleAnalysis "a1" "Un"] :=
  ((remove_success_restricts_list sampleEnv (analysesView [sampleAnalysis "a1" "Un"])
    "a9").2.2.2.2 (by decide)).2

/-- C30: on every state with loading false exactly one of `ProtectedRoute`
and `PublicRoute` renders its children and the other one redirects; in no
state do both render their children, and in no state do both redirect. -/
theorem gates_complementary (auth : AuthValue) :
    (auth.loading = false →
      (ProtectedRoute auth = Rendered.children ∧ (PublicRoute auth).isRedirect = true ∧
        PublicRoute auth ≠ Rendered.children) ∨
      (PublicRoute auth = Rendered.children ∧ (ProtectedRoute auth).isRedirect = true ∧
        ProtectedRoute auth ≠ Rendered.children)) ∧
    ¬ (ProtectedRoute auth = Rendered.children ∧ PublicRoute auth = Rendered.children) ∧
    ¬ ((ProtectedRoute auth).isRedirect = true ∧ (PublicRoute auth).isRedirect = true) := by
  obtain ⟨user, token, loading⟩ := auth
  cases loading <;> cases user <;>
    simp [ProtectedRoute, PublicRoute, Rendered.isRedirect]

/-- C30 at the anonymous state: the public gate renders its children and the
protected gate redirects. -/
theorem gates_complementary_witness :
    (ProtectedRoute anonymousAuth = Rendered.children ∧
        (PublicRoute anonymousAuth).isRedirect = true ∧
        PublicRoute anonymousAuth ≠ Rendered.children) ∨
    (PublicRoute anonymousAuth = Rendered.children ∧
        (ProtectedRoute anonymousAuth).isRedirect = true ∧
        ProtectedRoute anonymousAuth ≠ Rendered.children) :=
  (gates_complementary anonymousAuth).1 rfl

/-! ## Theorems: how many competitors -/

/-- A split has one piece more than the string has separators. -/
theorem length_splitChars (sep : Char) (cs : List Char) :
    (splitChars sep cs).length = cs.count sep + 1 := by
  induction cs with
  | nil => rfl
  | cons c rest ih =>
    simp only [splitChars]
    split_ifs with hc
    · subst hc
      simp [ih]
    · have hcount : (c :: rest).count sep = rest.count sep := by
        rw [List.count_cons]
        simp [hc]
      split
      · next hnil => exact absurd hnil (splitChars_ne_nil sep rest)
      · next piece pieces hp =>
        rw [hcount, ← ih, hp]
        rfl

/-- A string without the separator is its own single piece. -/
theorem splitChars_of_not_mem (sep : Char) (cs : List Char) (h : sep ∉ cs) :
    splitChars sep cs = [cs] := by
  induction cs with
  | nil => rfl
  | cons c rest ih =>
    have hc : ¬ c = sep := fun e => h (by simp [e])
    have hrest : sep ∉ rest := fun e => h (List.mem_cons_of_mem c e)
    simp [splitChars, hc, ih hrest]

/-- Trimming a string of white space leaves nothing. -/
theorem trimChars_of_all_whiteSpace (cs : List Char)
    (h : ∀ c ∈ cs, isJsWhiteSpace c = true) : trimChars cs = [] := by
  have hdrop : cs.dropWhile isJsWhiteSpace = [] := by
    rw [List.dropWhile_eq_nil_iff]
    exact h
  simp [trimChars, hdrop]

/-- C28: for every non-empty competitors string with k commas the
normalised sequence has k + 1 entries, empty pieces included: "Acme,,Globex"
gives ["Acme", "", "Globex"], a non-empty string of white space gives the
single entry "", and the sequence is empty for the empty string only. -/
theorem competitors_count (s : String) :
    (s ≠ "" → (competitorsPayload s).length = s.data.count ',' + 1) ∧
    competitorsPayload "Acme,,Globex" = ["Acme", "", "Globex"] ∧
    (s ≠ "" → (∀ c ∈ s.data, isJsWhiteSpace c = true) → competitorsPayload s = [""]) ∧
    (competitorsPayload s = [] ↔ s = "") ∧
    (Analyses.createPayload
      { title := "", industry := "", target_market := "", competitors := s,
        description := "" }).competitors = competitorsPayload s := by
  have hlen : s ≠ "" → (competitorsPayload s).length = s.data.count ',' + 1 := by
    intro h
    simp [competitorsPayload, h, jsSplit, length_splitChars]
  refine ⟨hlen, by decide, ?_, ?_, rfl⟩
  · intro h hws
    have hno : ',' ∉ s.data := by
      intro hmem
      have := hws ',' hmem
      revert this
      decide
    simp [competitorsPayload, h, jsSplit, splitChars_of_not_mem ',' s.data hno, jsTrim,
      trimChars_of_all_whiteSpace s.data hws]
  · constructor
    · intro hnil
      by_contra h
      have := hlen h
      rw [hnil] at this
      simp at this
    · intro h
      simp [competitorsPayload, h]

/-- C28 on the string "a, b,c" with two commas: three entries. -/
theorem competitors_count_witness :
    (competitorsPayload "a, b,c").length = "a, b,c".data.count ',' + 1 :=
  (competitors_count "a, b,c").1 (by decide)

end AppMarket
